import Mathlib

/-!
Verification development for the settlement-file splitter (PythonProject8).

The definitions below are a shallow embedding of `app.py`:
* Python `str` is Lean `String` (a list of unicode characters);
* Python `float` values are modelled as `ℚ` (every amount the program builds
  comes from decimal text or integer cents, and the claims under study are
  about which decimal value is accumulated, not about binary rounding);
* Python `float(s)` is modelled by `pyFloat?` for plain decimal literals
  (optional sign, digits, at most one dot, surrounding whitespace); the
  exponent / inf / nan forms never reachable from the parsed fields are not
  modelled;
* Python exceptions are modelled by `Option`;
* a Python `set` of strings is modelled as an insertion-ordered duplicate-free
  `List String` (`setAdd`);
* the regular-expression searches of the source are compiled by hand into
  character scanners with the same match semantics (leftmost match, greedy
  quantifiers, `finditer` resuming at the end of the previous match); each
  scanner's doc comment names the pattern it implements.
-/

namespace PySplitter

set_option maxRecDepth 100000

/-- Python whitespace test (`str.strip`, `str.split`, `\s`) for the ASCII range. -/
def pyIsSpace (c : Char) : Bool :=
  c == ' ' || c == '\t' || c == '\n' || c == '\r' || c == '\x0b' || c == '\x0c'

/-- ASCII digit test (Python `str.isdigit` / regex `\d` on the data in scope). -/
def pyIsDigit (c : Char) : Bool := '0' ≤ c && c ≤ '9'

/-- Python `s.strip()`. -/
def pyStrip (s : String) : String :=
  ⟨((s.data.dropWhile pyIsSpace).reverse.dropWhile pyIsSpace).reverse⟩

/-- Split a character list at every occurrence of `sep`, keeping empty pieces
(Python `s.split(sep)` for a one-character separator). -/
def splitOnChar (sep : Char) : List Char → List (List Char)
  | [] => [[]]
  | c :: rest =>
    if c == sep then [] :: splitOnChar sep rest
    else
      match splitOnChar sep rest with
      | [] => [[c]]
      | t :: ts => (c :: t) :: ts

/-- Python `s.split(sep)` for a one-character separator. -/
def pySplit (sep : Char) (s : String) : List String :=
  (splitOnChar sep s.data).map (fun l => ⟨l⟩)

/-- Helper for `pySplitWs`: accumulates the current (reversed) token. -/
def wsTokensAux : List Char → List Char → List String
  | [], acc => if acc.isEmpty then [] else [⟨acc.reverse⟩]
  | c :: cs, acc =>
    if pyIsSpace c then
      if acc.isEmpty then wsTokensAux cs [] else (⟨acc.reverse⟩ : String) :: wsTokensAux cs []
    else wsTokensAux cs (c :: acc)

/-- Python `s.split()` (split on whitespace runs, dropping empty fields);
also models `re.split(r'\s+', s)` followed by dropping blank fields. -/
def pySplitWs (s : String) : List String := wsTokensAux s.data []

/-- Python `s[:n]`. -/
def pyTake (n : Nat) (s : String) : String := ⟨s.data.take n⟩

/-- Python `s[a:b]` for `a ≤ b` within range. -/
def pySlice (s : String) (a b : Nat) : String := ⟨(s.data.drop a).take (b - a)⟩

/-- Python `s[n:]`. -/
def pyDropStr (n : Nat) (s : String) : String := ⟨s.data.drop n⟩

/-- Python `''.join(c for c in s if c.isdigit())`. -/
def digitsOf (s : String) : String := ⟨s.data.filter pyIsDigit⟩

/-- Python `s.replace(',', '')`. -/
def removeCommas (s : String) : String := ⟨s.data.filter (fun c => c != ',')⟩

/-- Python `s.replace('₱', '').replace('P', '').replace(',', '').strip()`. -/
def cleanCurrency (s : String) : String :=
  pyStrip ⟨s.data.filter (fun c => !(c == '₱' || c == 'P' || c == ','))⟩

/-- Decimal digits to a natural number. -/
def digitsToNat (cs : List Char) : Nat :=
  cs.foldl (fun a c => 10 * a + (c.toNat - '0'.toNat)) 0

/-- Python `float(s)` on a plain decimal literal, as a rational; `none` models a
`ValueError`. Handles an optional sign, digits with at most one dot (at least
one digit overall) and surrounding whitespace. -/
def pyFloat? (s : String) : Option ℚ :=
  let t := (pyStrip s).data
  let sgn : ℚ := match t with | '-' :: _ => -1 | _ => 1
  let u : List Char := match t with
    | '-' :: r => r
    | '+' :: r => r
    | r => r
  let ip := u.takeWhile pyIsDigit
  let rest := u.dropWhile pyIsDigit
  match rest with
  | [] => if ip.isEmpty then none else some (sgn * (digitsToNat ip : ℚ))
  | '.' :: frac =>
    if frac.all pyIsDigit && !(ip.isEmpty && frac.isEmpty) then
      some (sgn * ((digitsToNat ip : ℚ) + (digitsToNat frac : ℚ) / ((10 ^ frac.length : ℕ) : ℚ)))
    else none
  | _ => none

/-- Regex `^\d+\.\d+$` (Python `re.match(r'^\d+\.\d+$', s)` succeeding). -/
def isDecimalShape (s : String) : Bool :=
  let ip := s.data.takeWhile pyIsDigit
  let rest := s.data.dropWhile pyIsDigit
  !ip.isEmpty &&
    (match rest with
     | '.' :: frac => !frac.isEmpty && frac.all pyIsDigit
     | _ => false)

/-- Python `f"{d[:2]}/{d[2:4]}/{d[4:]}"`. -/
def fmtDateSlash (s : String) : String :=
  pySlice s 0 2 ++ "/" ++ pySlice s 2 4 ++ "/" ++ pyDropStr 4 s

/-- Uppercase one ASCII character (Python `str.upper` on the filenames in scope). -/
def pyUpperChar (c : Char) : Char :=
  if 'a' ≤ c && c ≤ 'z' then Char.ofNat (c.toNat - 32) else c

/-- Python `s.upper()`. -/
def pyUpper (s : String) : String := ⟨s.data.map pyUpperChar⟩

/-- Does `needle` occur as a contiguous run inside the list? -/
def listContains (needle : List Char) : List Char → Bool
  | [] => needle.isEmpty
  | c :: cs => ((c :: cs).take needle.length == needle) || listContains needle cs

/-- Python `needle in hay` for strings. -/
def pyIn (needle hay : String) : Bool := listContains needle.data hay.data

/-- Helper for `pyFindSub`, tracking the current index. -/
def findSubAux (needle : List Char) : List Char → Nat → Option Nat
  | [], i => if needle.isEmpty then some i else none
  | c :: cs, i =>
    if (c :: cs).take needle.length == needle then some i
    else findSubAux needle cs (i + 1)

/-- Python `hay.find(needle)`, with `none` for `-1`. -/
def pyFindSub (hay needle : String) : Option Nat := findSubAux needle.data hay.data 0

/-- Python `s.rfind(c)` for a single character, with `none` for `-1`. -/
def pyRFindChar (c : Char) (s : String) : Option Nat :=
  match s.data.reverse.findIdx? (fun x => x == c) with
  | some j => some (s.data.length - 1 - j)
  | none => none

/-- Length of the longest prefix satisfying `p`. -/
def countWhile (p : Char → Bool) : List Char → Nat
  | [] => 0
  | c :: cs => if p c then countWhile p cs + 1 else 0

/-- Length-bounded lexicographic comparison of character lists; agrees with
Python string `<` on the data in scope. -/
def listLt : List Char → List Char → Bool
  | [], [] => false
  | [], _ :: _ => true
  | _ :: _, [] => false
  | a :: as, b :: bs => if a < b then true else if b < a then false else listLt as bs

/-- Insert a string into a sorted list (helper for `sortStr`). -/
def insertStr (s : String) : List String → List String
  | [] => [s]
  | t :: ts => if listLt s.data t.data then s :: t :: ts else t :: insertStr s ts

/-- Python `sorted(l)` for lists of strings (insertion sort). -/
def sortStr : List String → List String
  | [] => []
  | s :: ss => insertStr s (sortStr ss)

/-- All `group(1)` values of `re.finditer(r'\s{10,}(\d{14})\s+', line)`, in
order; scanning resumes after the end of each (greedy) match, exactly as in
Python. The `fuel` argument is the remaining length bound and never runs out
when initialised with the list length, since every recursive call consumes at
least one character. -/
def ubScan1Aux : Nat → List Char → List (List Char)
  | 0, _ => []
  | _, [] => []
  | fuel + 1, c :: cs =>
    let k := countWhile pyIsSpace (c :: cs)
    if 10 ≤ k then
      let rest := (c :: cs).drop k
      let digs := rest.take 14
      if digs.length == 14 && digs.all pyIsDigit &&
          (match rest.drop 14 with | d :: _ => pyIsSpace d | [] => false) then
        let after := rest.drop 14
        digs :: ubScan1Aux fuel (after.drop (countWhile pyIsSpace after))
      else ubScan1Aux fuel cs
    else ubScan1Aux fuel cs

/-- Regex `\s{10,}(\d{14})\s+` via `finditer`: list of all captured groups. -/
def ubScan1 (cs : List Char) : List (List Char) := ubScan1Aux cs.length cs

/-- Regex `re.search(r'\s{10,}(\d{4,})\s+', line)`: first captured group. -/
def ubScan2 : List Char → Option (List Char)
  | [] => none
  | c :: cs =>
    let k := countWhile pyIsSpace (c :: cs)
    if 10 ≤ k then
      let rest := (c :: cs).drop k
      let d := countWhile pyIsDigit rest
      if 4 ≤ d && (match rest.drop d with | x :: _ => pyIsSpace x | [] => false) then
        some (rest.take d)
      else ubScan2 cs
    else ubScan2 cs

/-- Regex `re.search(r'(\d{12})(?:DB|LC)\d*\s*$', line)`: first captured group. -/
def ubAmountScan : List Char → Option (List Char)
  | [] => none
  | c :: cs =>
    let digs := (c :: cs).take 12
    if digs.length == 12 && digs.all pyIsDigit then
      let rest := (c :: cs).drop 12
      if rest.take 2 == ['D', 'B'] || rest.take 2 == ['L', 'C'] then
        let rest2 := rest.drop 2
        let rest3 := rest2.drop (countWhile pyIsDigit rest2)
        if (rest3.drop (countWhile pyIsSpace rest3)).isEmpty then some digs
        else ubAmountScan cs
      else ubAmountScan cs
    else ubAmountScan cs

/-- Regex `re.search(r'UB\d+\s+(\d{6})', line)`: first captured group. -/
def ubDateScan : List Char → Option (List Char)
  | [] => none
  | c :: cs =>
    (if c == 'U' then
      match cs with
      | 'B' :: rest =>
        let a := countWhile pyIsDigit rest
        if 1 ≤ a then
          let r2 := rest.drop a
          let b := countWhile pyIsSpace r2
          let r3 := r2.drop b
          if 1 ≤ b && (r3.take 6).length == 6 && (r3.take 6).all pyIsDigit then
            some (r3.take 6)
          else ubDateScan cs
        else ubDateScan cs
      | _ => ubDateScan cs
    else ubDateScan cs)

/-- Regex `re.search(r'(\d{11,12})[A-Z]', line)`: first captured group. -/
def mbAmountScan : List Char → Option (List Char)
  | [] => none
  | c :: cs =>
    let d := countWhile pyIsDigit (c :: cs)
    if (d == 11 || d == 12) &&
        (match (c :: cs).drop d with | x :: _ => 'A' ≤ x && x ≤ 'Z' | [] => false) then
      some ((c :: cs).take d)
    else mbAmountScan cs

/-- Regex `re.search(r'(\d{6})\d*$', line)`: first captured group (the first six
characters of the trailing digit run, when that run has length at least six). -/
def mbDateScan (cs : List Char) : Option (List Char) :=
  let d := countWhile pyIsDigit cs.reverse
  if 6 ≤ d then some ((cs.drop (cs.length - d)).take 6) else none

/-- Regex `re.findall(r'\d{14}', line)`: all (non-overlapping, leftmost)
matches. Fuel as in `ubScan1Aux`. -/
def findall14Aux : Nat → List Char → List (List Char)
  | 0, _ => []
  | _, [] => []
  | fuel + 1, c :: cs =>
    if ((c :: cs).take 14).length == 14 && ((c :: cs).take 14).all pyIsDigit then
      ((c :: cs).take 14) :: findall14Aux fuel ((c :: cs).drop 14)
    else findall14Aux fuel cs

/-- Regex `re.findall(r'\d{14}', line)`. -/
def findall14 (cs : List Char) : List (List Char) := findall14Aux cs.length cs

/-- Backward amount scan of the SM branch (app.py 2158-2164): collect digits at
indices `cs_pos - 1` down to `max(0, cs_pos - 10) + 1` (the Python
`range(cs_pos - 1, max(0, cs_pos - 10), -1)`, whose stop index is excluded),
breaking at the first non-digit. The collected digits are the maximal digit
suffix of that window. -/
def smBackScan (cs : List Char) (p : Nat) : List Char :=
  let lo := max 0 (p - 10)
  (((cs.drop (lo + 1)).take (p - 1 - lo)).reverse.takeWhile pyIsDigit).reverse

/-- One aggregation group (the per-ATM-reference dictionaries built by
`process_file_content`). `dates` and `atm_refs` model Python `set`s as
insertion-ordered duplicate-free lists; the BANCNET branch creates its
dictionaries without a `dates`/`atm_refs` key and never touches these fields,
which the embedding renders as the fields staying `[]`. -/
structure Group where
  raw_contents : List String
  transaction_count : Nat
  total_amount : ℚ
  payment_mode : String
  dates : List String
  atm_refs : List String
  deriving DecidableEq

/-- The `grouped_data` dictionary, as a finite-support lookup function. -/
def GroupedData := String → Option Group

/-- The empty `grouped_data` dictionary. -/
def emptyGD : GroupedData := fun _ => none

/-- Dictionary update `grouped_data[k] = g`. -/
def gdUpdate (gd : GroupedData) (k : String) (g : Group) : GroupedData :=
  fun k2 => if k2 = k then some g else gd k2

/-- The freshly initialised group (`raw_contents: [], transaction_count: 0,
total_amount: 0.0, payment_mode, dates: set()`). -/
def freshGroup (mode : String) : Group :=
  { raw_contents := [], transaction_count := 0, total_amount := 0,
    payment_mode := mode, dates := [], atm_refs := [] }

/-- The Python `if key not in grouped_data: grouped_data[key] = fresh` followed
by reading `grouped_data[key]`. -/
def getOrInit (gd : GroupedData) (k mode : String) : Group :=
  (gd k).getD (freshGroup mode)

/-- Python `set.add`. -/
def setAdd (l : List String) (s : String) : List String :=
  if s ∈ l then l else l ++ [s]

/-- Lines handed to the channel loops: `content.strip().split('\n')`
(app.py 1677). -/
def pyLines (content : String) : List String := pySplit '\n' (pyStrip content)

/-- Raw-line list of an optional group. -/
def rawsD (o : Option Group) : List String := (o.map Group.raw_contents).getD []

/-- Transaction count of an optional group. -/
def countD (o : Option Group) : Nat := (o.map Group.transaction_count).getD 0

/-- Total amount of an optional group. -/
def totalD (o : Option Group) : ℚ := (o.map Group.total_amount).getD 0

/-- Date set of an optional group. -/
def datesD (o : Option Group) : List String := (o.map Group.dates).getD []

/-- Filename classification (app.py 479-509, `detect_payment_mode_from_filename`). -/
def detect_payment_mode_from_filename (filename : String) : String :=
  let fu := pyUpper filename
  if pyIn "ECPAY" fu then "ECPAY"
  else if pyIn "BDO" fu then "BDO"
  else if pyIn "CEBUANA" fu then "CEBUANA"
  else if pyIn "PERALINK" fu then "PERALINK"
  else if pyIn "CHINABANK" fu || pyIn "CHINA BANK" fu then "CHINABANK"
  else if pyIn "CIS" fu then "CIS"
  else if pyIn "METROBANK" fu || pyIn "METRO BANK" fu then "METROBANK"
  else if pyIn "PNB" fu then "PNB"
  else if pyIn "UB" fu || pyIn "UNIONBANK" fu then "UNIONBANK"
  else if pyIn "SM" fu then "SM"
  else if pyIn "BANCNET" fu then "BANCNET"
  else if pyIn "ROB" fu || pyIn "ROBINSONS" fu || pyIn "ROBINSON" fu then "ROB"
  else "Unknown"

/-- ATM-reference detection helper (app.py 364-476,
`detect_atm_reference_by_payment_mode`); `none` models `return None`. -/
def detect_atm_reference_by_payment_mode (fields : List String)
    (payment_mode : String) (original_line : String) : Option String :=
  if payment_mode = "METROBANK" then
    let fs := pySplitWs original_line
    if 1 < fs.length then some (pyStrip (fs.getD 1 "")) else none
  else if payment_mode = "PNB" then
    if 4 < fields.length then
      let clean_ref := digitsOf (pyStrip (fields.getD 4 ""))
      if 4 ≤ clean_ref.length then some (pyTake 4 clean_ref) else none
    else none
  else if payment_mode = "BDO" then
    if 5 < fields.length then
      let clean_ref := digitsOf (pyStrip (fields.getD 5 ""))
      if 4 ≤ clean_ref.length then some (pyTake 4 clean_ref) else none
    else none
  else if payment_mode = "ECPAY" then
    if 5 < fields.length then
      let clean_ref := digitsOf (pyStrip (fields.getD 5 ""))
      if 4 ≤ clean_ref.length then some (pyTake 4 clean_ref) else none
    else none
  else if payment_mode = "UNIONBANK" then
    match (findall14 original_line.data).getLast? with
    | some m => some (pyTake 4 ⟨m⟩)
    | none => none
  else if payment_mode = "CIS" then
    if 1 < fields.length then
      let clean_ref := digitsOf (pyStrip (fields.getD 1 ""))
      if 4 ≤ clean_ref.length then some (pyTake 4 clean_ref) else none
    else none
  else if payment_mode = "CHINABANK" then
    if 3 < fields.length then
      let clean_ref := digitsOf (pyStrip (fields.getD 3 ""))
      if 4 ≤ clean_ref.length then some (pyTake 4 clean_ref) else none
    else none
  else if payment_mode = "CEBUANA" then
    if 4 < fields.length then
      let clean_ref := digitsOf (pyStrip (fields.getD 4 ""))
      if 4 ≤ clean_ref.length then some (pyTake 4 clean_ref) else none
    else none
  else none

/-- Amount extraction helper (app.py 541-577, `extract_amount`). The
`ValueError` raised by `float` on a matched specific rule is caught by the
outer handler, which returns `0.0`; when a specific rule's length guard fails,
control falls through to the generic loops. -/
def extract_amount (fields : List String) (payment_mode : String) : ℚ :=
  let primary : Option (Option ℚ) :=
    if payment_mode = "BDO" then
      if 9 < fields.length then some (pyFloat? (removeCommas (fields.getD 9 ""))) else none
    else if payment_mode = "CHINABANK" then
      if 2 < fields.length then some (pyFloat? (removeCommas (fields.getD 2 ""))) else none
    else if payment_mode = "CEBUANA" || payment_mode = "PERALINK" then
      if 5 < fields.length then some (pyFloat? (removeCommas (fields.getD 5 ""))) else none
    else
      match fields.find? (fun f => isDecimalShape (pyStrip f)) with
      | some f => some (pyFloat? (pyStrip f))
      | none => none
  match primary with
  | some (some a) => a
  | some none => 0
  | none =>
    match fields.find? (fun f =>
        match pyFloat? (cleanCurrency f) with
        | some a => decide (0 < a) && decide (a < 1000000000)
        | none => false) with
    | some f => (pyFloat? (cleanCurrency f)).getD 0
    | none => 0

/-- CIS field split: `[f.strip() for f in line.split('^')]` (app.py 1692). -/
def cisFields (line : String) : List String := (pySplit '^' line).map pyStrip

/-- CIS reference rule (app.py 1695-1701): digits of field 1, first four,
requiring at least four digits. -/
def cisRef? (line : String) : Option String :=
  let fields := cisFields line
  if 1 < fields.length then
    let clean_ref := digitsOf (pyStrip (fields.getD 1 ""))
    if 4 ≤ clean_ref.length then some (pyTake 4 clean_ref) else none
  else none

/-- CIS amount rule (app.py 1716-1723): field 2 with commas removed, as a
decimal; `none` when the field is missing or not numeric. -/
def cisAmount? (line : String) : Option ℚ :=
  let fields := cisFields line
  if 2 < fields.length then pyFloat? (removeCommas (fields.getD 2 "")) else none

/-- CIS date rule (app.py 1726-1731): field 0, stripped, added unconditionally. -/
def cisDate? (line : String) : Option String :=
  let fields := cisFields line
  if 0 < fields.length then some (pyStrip (fields.getD 0 "")) else none

/-- PNB field split: `[f.strip() for f in line.split('^')]` (app.py 1795). -/
def pnbFields (line : String) : List String := (pySplit '^' line).map pyStrip

/-- PNB reference rule (app.py 1798-1804): digits of field 4, first four. -/
def pnbRef? (line : String) : Option String :=
  let fields := pnbFields line
  if 4 < fields.length then
    let clean_ref := digitsOf (pyStrip (fields.getD 4 ""))
    if 4 ≤ clean_ref.length then some (pyTake 4 clean_ref) else none
  else none

/-- PNB amount rule (app.py 1819-1826): field 6 with commas removed. -/
def pnbAmount? (line : String) : Option ℚ :=
  let fields := pnbFields line
  if 6 < fields.length then pyFloat? (removeCommas (fields.getD 6 "")) else none

/-- PNB date rule (app.py 1829-1834): field 1, stripped, added unconditionally. -/
def pnbDate? (line : String) : Option String :=
  let fields := pnbFields line
  if 1 < fields.length then some (pyStrip (fields.getD 1 "")) else none

/-- BDO field split: `line.strip().split('|')` (app.py 1843). -/
def bdoFields (line : String) : List String := pySplit '|' (pyStrip line)

/-- BDO reference rule (app.py 1845, via `detect_atm_reference_by_payment_mode`). -/
def bdoRef? (line : String) : Option String :=
  detect_atm_reference_by_payment_mode (bdoFields line) "BDO" line

/-- BDO amount rule (app.py 1859-1866): field 9, stripped, as a decimal. -/
def bdoAmount? (line : String) : Option ℚ :=
  let fields := bdoFields line
  if 9 < fields.length then pyFloat? (pyStrip (fields.getD 9 "")) else none

/-- BDO date rule (app.py 1869-1874): field 2, stripped, added unconditionally. -/
def bdoDate? (line : String) : Option String :=
  let fields := bdoFields line
  if 2 < fields.length then some (pyStrip (fields.getD 2 "")) else none

/-- ECPAY field split: `[f.strip() for f in line.split(',')]` (app.py 1884). -/
def ecpayFields (line : String) : List String := (pySplit ',' line).map pyStrip

/-- ECPAY reference rule (app.py 1886, via `detect_atm_reference_by_payment_mode`). -/
def ecpayRef? (line : String) : Option String :=
  detect_atm_reference_by_payment_mode (ecpayFields line) "ECPAY" line

/-- ECPAY amount rule (app.py 1900-1907): field 6 with commas removed. -/
def ecpayAmount? (line : String) : Option ℚ :=
  let fields := ecpayFields line
  if 6 < fields.length then pyFloat? (removeCommas (fields.getD 6 "")) else none

/-- ECPAY date rule (app.py 1910-1916): field 2, stripped, added when non-empty. -/
def ecpayDate? (line : String) : Option String :=
  let fields := ecpayFields line
  if 2 < fields.length then
    let d := pyStrip (fields.getD 2 "")
    if d = "" then none else some d
  else none

/-- CHINABANK field split: `re.split(r'\s+', line.strip())` with blank fields
dropped (app.py 1926). -/
def chinabankFields (line : String) : List String := pySplitWs (pyStrip line)

/-- CHINABANK reference rule (app.py 1929-1935): digits of field 3, first four. -/
def chinabankRef? (line : String) : Option String :=
  let fields := chinabankFields line
  if 3 < fields.length then
    let clean_ref := digitsOf (pyStrip (fields.getD 3 ""))
    if 4 ≤ clean_ref.length then some (pyTake 4 clean_ref) else none
  else none

/-- CHINABANK amount rule (app.py 1950-1957): field 2 with commas removed. -/
def chinabankAmount? (line : String) : Option ℚ :=
  let fields := chinabankFields line
  if 2 < fields.length then pyFloat? (removeCommas (fields.getD 2 "")) else none

/-- CHINABANK date rule (app.py 1960-1968): field 0 reformatted from `MMDDYYYY`
to `MM/DD/YYYY`, added when non-empty. -/
def chinabankDate? (line : String) : Option String :=
  let fields := chinabankFields line
  if 0 < fields.length then
    let d := pyStrip (fields.getD 0 "")
    if d = "" then none else some (fmtDateSlash d)
  else none

/-- CEBUANA field split: `[f.strip() for f in line.split(',')]` (app.py 1978). -/
def cebuanaFields (line : String) : List String := (pySplit ',' line).map pyStrip

/-- CEBUANA reference rule (app.py 1981-1987): digits of field 4, first four. -/
def cebuanaRef? (line : String) : Option String :=
  let fields := cebuanaFields line
  if 4 < fields.length then
    let clean_ref := digitsOf (pyStrip (fields.getD 4 ""))
    if 4 ≤ clean_ref.length then some (pyTake 4 clean_ref) else none
  else none

/-- CEBUANA amount rule (app.py 2002-2009): field 6 with commas removed. -/
def cebuanaAmount? (line : String) : Option ℚ :=
  let fields := cebuanaFields line
  if 6 < fields.length then pyFloat? (removeCommas (fields.getD 6 "")) else none

/-- CEBUANA date rule (app.py 2012-2018): field 2, stripped, used when
non-empty; the branch assigns `dates = {date}`, replacing the set. -/
def cebuanaDate? (line : String) : Option String :=
  let fields := cebuanaFields line
  if 2 < fields.length then
    let d := pyStrip (fields.getD 2 "")
    if d = "" then none else some d
  else none

/-- METROBANK field split: `[f.strip() for f in line.split() if f.strip()]`
(app.py 1742). -/
def mbFields (line : String) : List String := pySplitWs line

/-- METROBANK reference rule (app.py 1743-1746): first four characters of
field 1 (no digit filter). -/
def mbRef? (line : String) : Option String :=
  let fields := mbFields line
  if 1 < fields.length then some (pyTake 4 (pyStrip (fields.getD 1 ""))) else none

/-- METROBANK amount rule (app.py 1761-1767): regex `(\d{11,12})[A-Z]` over the
line, as integer cents. -/
def mbAmount? (line : String) : Option ℚ :=
  match mbAmountScan line.data with
  | some ds => some ((digitsToNat ds : ℚ) / 100)
  | none => none

/-- METROBANK date rule (app.py 1770-1775): regex `(\d{6})\d*$` over the line,
reformatted `DD/MM/YY`. -/
def mbDate? (line : String) : Option String :=
  match mbDateScan line.data with
  | some ds => some (fmtDateSlash ⟨ds⟩)
  | none => none

/-- SM reference rule (app.py 2132-2134): for lines of length at least 45, the
first four characters of `line[18:31]`. -/
def smRef? (line : String) : Option String :=
  if 45 ≤ line.length then some (pyTake 4 (pySlice line 18 31)) else none

/-- The full `line[18:31]` reference stored into the SM group's `atm_refs`. -/
def smRef13 (line : String) : String := pySlice line 18 31

/-- SM amount rule (app.py 2156-2170): digits collected backward before the
first `CS`, as integer cents; `none` when `CS` is absent, at position 0, or no
digit is collected. -/
def smAmount? (line : String) : Option ℚ :=
  match pyFindSub line "CS" with
  | some p =>
    if 0 < p then
      let ds := smBackScan line.data p
      if ds.isEmpty then none else some ((digitsToNat ds : ℚ) / 100)
    else none
  | none => none

/-- SM date rule (app.py 2173-2179): `line[3:11]` reformatted from `MMDDYYYY`
to `MM/DD/YYYY`, when the line is long enough and the slice non-empty. -/
def smDate? (line : String) : Option String :=
  if 11 ≤ line.length then
    let d := pySlice line 3 11
    if d = "" then none else some (fmtDateSlash d)
  else none

/-- BANCNET reference rule (app.py 2204-2211): the four characters
`line[p-14:p-10]` where `p` is the index of the first `*`, requiring `p ≥ 14`
and a non-blank slice. -/
def bancnetRef? (line : String) : Option String :=
  match pyFindSub line "*" with
  | none => none
  | some p =>
    if p < 14 then none
    else
      let f := pySlice line (p - 14) (p - 10)
      if pyStrip f = "" then none else some f

/-- BANCNET amount rule (app.py 2227-2236): `line[q+21:q+29]` where `q` is the
index of the last `*`, as cents, accepted only when `0 < amount < 1000000`. -/
def bancnetAmount? (line : String) : Option ℚ :=
  match pyRFindChar '*' line with
  | none => none
  | some q =>
    if 0 < q ∧ q + 28 < line.length then
      match pyFloat? (pySlice line (q + 21) (q + 29)) with
      | some v =>
        let amount := v / 100
        if 0 < amount ∧ amount < 1000000 then some amount else none
      | none => none
    else none

/-- ROB field split (app.py 2265-2269): split on `|`, split each piece on `^`,
concatenate, keep non-blank fields, strip them. -/
def robFields (line : String) : List String :=
  let fields := ((pySplit '|' line).map (fun p => pySplit '^' p)).flatten
  (fields.filter (fun f => pyStrip f != "")).map pyStrip

/-- ROB reference rule (app.py 2272-2276): first four characters of field 4
(no digit filter), requiring at least four characters. -/
def robRef? (line : String) : Option String :=
  let fields := robFields line
  if 4 < fields.length then
    let f := pyStrip (fields.getD 4 "")
    if 4 ≤ f.length then some (pyTake 4 f) else none
  else none

/-- The full field 4 stored into the ROB group's `atm_refs` (app.py 2291). -/
def robRefFull (line : String) : String := pyStrip ((robFields line).getD 4 "")

/-- ROB amount rule (app.py 2298-2305): field 6, stripped, as a decimal in
major units. -/
def robAmount? (line : String) : Option ℚ :=
  let fields := robFields line
  if 6 < fields.length then pyFloat? (pyStrip (fields.getD 6 "")) else none

/-- ROB date rule (app.py 2308-2315): field 0, stripped, added when non-empty. -/
def robDate? (line : String) : Option String :=
  let fields := robFields line
  if 0 < fields.length then
    let d := pyStrip (fields.getD 0 "")
    if d = "" then none else some d
  else none

/-- The group mutation shared by the CIS / METROBANK / PNB / BDO / ECPAY /
CHINABANK / SM-style branches: append the raw line, increment the count, add
the amount when one parses, add the date when one parses. -/
def applyStd (amount? : Option ℚ) (date? : Option String) (line : String) (g : Group) : Group :=
  let g1 := { g with raw_contents := g.raw_contents ++ [line],
                     transaction_count := g.transaction_count + 1 }
  let g2 := match amount? with
    | some a => { g1 with total_amount := g1.total_amount + a }
    | none => g1
  match date? with
  | some d => { g2 with dates := setAdd g2.dates d }
  | none => g2

/-- The CEBUANA group mutation (app.py 1998-2018): as `applyStd`, but a
non-empty date replaces the whole date set (`dates = {date}`). -/
def applyCebuana (amount? : Option ℚ) (date? : Option String) (line : String) (g : Group) : Group :=
  let g1 := { g with raw_contents := g.raw_contents ++ [line],
                     transaction_count := g.transaction_count + 1 }
  let g2 := match amount? with
    | some a => { g1 with total_amount := g1.total_amount + a }
    | none => g1
  match date? with
  | some d => { g2 with dates := [d] }
  | none => g2

/-- The SM / ROB group mutation (app.py 2148-2179, 2290-2315): as `applyStd`
preceded by adding the full reference to the group's `atm_refs` set. -/
def applyWithRefs (refFull : String) (amount? : Option ℚ) (date? : Option String)
    (line : String) (g : Group) : Group :=
  applyStd amount? date? line { g with atm_refs := setAdd g.atm_refs refFull }

/-- One loop iteration of a standard channel branch: skip blank lines, skip
lines whose reference rule fails, otherwise ensure the group exists and apply
the group mutation. -/
def mkStep (mode : String) (ref? : String → Option String)
    (applyF : String → Group → Group) (gd : GroupedData) (line : String) : GroupedData :=
  if pyStrip line = "" then gd
  else
    match ref? line with
    | none => gd
    | some k => gdUpdate gd k (applyF line (getOrInit gd k mode))

/-- One loop iteration of a branch that also accumulates a file-wide total
(METROBANK, SM, BANCNET, ROB). -/
def mkStepTot (mode : String) (ref? : String → Option String)
    (amount? : String → Option ℚ) (applyF : String → Group → Group)
    (st : GroupedData × ℚ) (line : String) : GroupedData × ℚ :=
  if pyStrip line = "" then st
  else
    match ref? line with
    | none => st
    | some k =>
      let gd2 := gdUpdate st.1 k (applyF line (getOrInit st.1 k mode))
      match amount? line with
      | some a => (gd2, st.2 + a)
      | none => (gd2, st.2)

/-- CIS branch step (app.py 1684-1731). -/
def cisStep : GroupedData → String → GroupedData :=
  mkStep "CIS" cisRef? (fun line => applyStd (cisAmount? line) (cisDate? line) line)

/-- PNB branch step (app.py 1787-1834). -/
def pnbStep : GroupedData → String → GroupedData :=
  mkStep "PNB" pnbRef? (fun line => applyStd (pnbAmount? line) (pnbDate? line) line)

/-- BDO branch step (app.py 1836-1874). -/
def bdoStep : GroupedData → String → GroupedData :=
  mkStep "BDO" bdoRef? (fun line => applyStd (bdoAmount? line) (bdoDate? line) line)

/-- ECPAY branch step (app.py 1876-1916). -/
def ecpayStep : GroupedData → String → GroupedData :=
  mkStep "ECPAY" ecpayRef? (fun line => applyStd (ecpayAmount? line) (ecpayDate? line) line)

/-- CHINABANK branch step (app.py 1918-1968). -/
def chinabankStep : GroupedData → String → GroupedData :=
  mkStep "CHINABANK" chinabankRef? (fun line => applyStd (chinabankAmount? line) (chinabankDate? line) line)

/-- CEBUANA branch step (app.py 1970-2018). -/
def cebuanaStep : GroupedData → String → GroupedData :=
  mkStep "CEBUANA" cebuanaRef? (fun line => applyCebuana (cebuanaAmount? line) (cebuanaDate? line) line)

/-- METROBANK branch step (app.py 1733-1776), accumulating the file-wide total. -/
def mbStep : GroupedData × ℚ → String → GroupedData × ℚ :=
  mkStepTot "METROBANK" mbRef? mbAmount?
    (fun line => applyStd (mbAmount? line) (mbDate? line) line)

/-- SM branch step (app.py 2120-2181), accumulating the file-wide total. -/
def smStep : GroupedData × ℚ → String → GroupedData × ℚ :=
  mkStepTot "SM" smRef? smAmount?
    (fun line => applyWithRefs (smRef13 line) (smAmount? line) (smDate? line) line)

/-- BANCNET branch step (app.py 2195-2241), accumulating the file-wide total;
the BANCNET branch extracts no date. -/
def bancnetStep : GroupedData × ℚ → String → GroupedData × ℚ :=
  mkStepTot "BANCNET" bancnetRef? bancnetAmount?
    (fun line => applyStd (bancnetAmount? line) none line)

/-- ROB branch step (app.py 2253-2315), accumulating the file-wide total. -/
def robStep : GroupedData × ℚ → String → GroupedData × ℚ :=
  mkStepTot "ROB" robRef? robAmount?
    (fun line => applyWithRefs (robRefFull line) (robAmount? line) (robDate? line) line)

/-- UNIONBANK amount rule (app.py 2073-2081): regex
`(\d{12})(?:DB|LC)\d*\s*$`, as integer cents. -/
def ubAmount? (line : String) : Option ℚ :=
  match ubAmountScan line.data with
  | some ds => some ((digitsToNat ds : ℚ) / 100)
  | none => none

/-- UNIONBANK date rule (app.py 2084-2089): regex `UB\d+\s+(\d{6})`,
reformatted `DD/MM/YY`. -/
def ubDate? (line : String) : Option String :=
  match ubDateScan line.data with
  | some ds => some (fmtDateSlash ⟨ds⟩)
  | none => none

/-- UNIONBANK reference-key computation for a line of length at least 200
(app.py 2032-2058): the last `\s{10,}(\d{14})\s+` match, else the first
`\s{10,}(\d{4,})\s+` match, else the digits of whitespace-field 4, taking the
first four digits each time; when everything fails the key is `"0000"`. -/
def ubComputeRef (line : String) : String :=
  match (ubScan1 line.data).getLast? with
  | some digs => pyTake 4 ⟨digs⟩
  | none =>
    match ubScan2 line.data with
    | some digs => pyTake 4 ⟨digs⟩
    | none =>
      let fields := pySplitWs (pyStrip line)
      if 4 < fields.length then
        let clean_ref := pyTake 4 (digitsOf (fields.getD 4 ""))
        if 4 ≤ clean_ref.length then clean_ref else "0000"
      else "0000"

/-- Parser state of the UNIONBANK branch: the running `current_atm_ref`
(`none` models Python `None`) and the grouped data. -/
structure UBState where
  current : Option String
  gd : GroupedData

/-- The `if key not in grouped_data: grouped_data[key] = fresh` of the
UNIONBANK branch (app.py 2060-2067 and 2109-2116). -/
def ubEnsure (gd : GroupedData) (k : String) : GroupedData :=
  if (gd k).isSome then gd else gdUpdate gd k (freshGroup "UNIONBANK")

/-- The record-carrying UNIONBANK group mutation (app.py 2071-2093): add the
amount when the pattern matches, add the date when the pattern matches, then
append the raw line and increment the count. -/
def ubApplyLong (line : String) (g : Group) : Group :=
  let g1 := match ubAmount? line with
    | some a => { g with total_amount := g.total_amount + a }
    | none => g
  let g2 := match ubDate? line with
    | some d => { g1 with dates := setAdd g1.dates d }
    | none => g1
  { g2 with raw_contents := g2.raw_contents ++ [line],
            transaction_count := g2.transaction_count + 1 }

/-- Deduplicated raw-line append (app.py 2104-2105 and 2117-2118): append the
line to the group's raw contents unless it is already present; count and
total are not touched. -/
def ubAppendDedup (gd : GroupedData) (k : String) (line : String) : GroupedData :=
  let g := (gd k).getD (freshGroup "UNIONBANK")
  if line ∈ g.raw_contents then gd
  else gdUpdate gd k { g with raw_contents := g.raw_contents ++ [line] }

/-- The UNIONBANK orphan branch (app.py 2108-2118): ensure the `NOREF` group
and append the line to its raw contents unless already present. -/
def ubOrphan (st : UBState) (line : String) : UBState :=
  { st with gd := ubAppendDedup (ubEnsure st.gd "NOREF") "NOREF" line }

/-- One loop iteration of the UNIONBANK branch (app.py 2024-2118). Lines of
length at least 200 compute a new current reference, ensure its group, and --
unless the identical line is already buffered there -- add amount, date, the
raw line and a count. Shorter lines are appended (deduplicated, without count
or total) to the current group when one is established, and to `NOREF`
otherwise. -/
def ubStep (st : UBState) (line : String) : UBState :=
  if pyStrip line = "" then st
  else if 200 ≤ line.length then
    let current := ubComputeRef line
    let gd := ubEnsure st.gd current
    let g := (gd current).getD (freshGroup "UNIONBANK")
    if line ∈ g.raw_contents then { current := some current, gd := gd }
    else { current := some current, gd := gdUpdate gd current (ubApplyLong line g) }
  else
    match st.current with
    | some r =>
      if (st.gd r).isSome then ubAppendDedup st.gd r line
        |> (fun gd2 => { st with gd := gd2 })
      else ubOrphan st line
    | none => ubOrphan st line

/-- The group that a non-blank UNIONBANK line is buffered under. -/
def ubTarget (st : UBState) (line : String) : String :=
  if 200 ≤ line.length then ubComputeRef line
  else
    match st.current with
    | some r => if (st.gd r).isSome then r else "NOREF"
    | none => "NOREF"

/-- Final date normalisation (app.py 2335-2338): each group's date set becomes
a sorted list. Only the branches that do not return early reach this code. -/
def finalizeDates (gd : GroupedData) : GroupedData :=
  fun k => (gd k).map (fun g => { g with dates := sortStr g.dates })

/-- The grouped data produced by `process_file_content(content, payment_mode)`
(app.py 1665-2344). The branch dispatch order matches the source; an
unrecognised mode leaves the grouped data empty. The METROBANK / SM / BANCNET /
ROB branches return early and skip the final date normalisation. The file-wide
`raw_contents` list and grand totals of the early-return branches are not part
of the grouped data and are omitted here. -/
def processFileContent (content payment_mode : String) : GroupedData :=
  if payment_mode = "CIS" then finalizeDates ((pyLines content).foldl cisStep emptyGD)
  else if payment_mode = "METROBANK" then ((pyLines content).foldl mbStep (emptyGD, 0)).1
  else if payment_mode = "PNB" then finalizeDates ((pyLines content).foldl pnbStep emptyGD)
  else if payment_mode = "BDO" then finalizeDates ((pyLines content).foldl bdoStep emptyGD)
  else if payment_mode = "ECPAY" then finalizeDates ((pyLines content).foldl ecpayStep emptyGD)
  else if payment_mode = "CHINABANK" then
    finalizeDates ((pyLines content).foldl chinabankStep emptyGD)
  else if payment_mode = "CEBUANA" then finalizeDates ((pyLines content).foldl cebuanaStep emptyGD)
  else if payment_mode = "UNIONBANK" then
    finalizeDates ((pyLines content).foldl ubStep { current := none, gd := emptyGD }).gd
  else if payment_mode = "SM" then ((pyLines content).foldl smStep (emptyGD, 0)).1
  else if payment_mode = "BANCNET" then ((pyLines content).foldl bancnetStep (emptyGD, 0)).1
  else if payment_mode = "ROB" then ((pyLines content).foldl robStep (emptyGD, 0)).1
  else finalizeDates emptyGD

section Lemmas

@[simp]
theorem gdUpdate_self (gd : GroupedData) (k : String) (g : Group) :
    gdUpdate gd k g k = some g := by
  simp [gdUpdate]

theorem gdUpdate_other (gd : GroupedData) (k k2 : String) (g : Group) (h : k2 ≠ k) :
    gdUpdate gd k g k2 = gd k2 := by
  simp [gdUpdate, h]

theorem rawsD_gdUpdate_self (gd : GroupedData) (k : String) (g : Group) :
    rawsD (gdUpdate gd k g k) = g.raw_contents := by
  rw [gdUpdate_self]; simp [rawsD]

theorem countD_gdUpdate_self (gd : GroupedData) (k : String) (g : Group) :
    countD (gdUpdate gd k g k) = g.transaction_count := by
  rw [gdUpdate_self]; simp [countD]

theorem totalD_gdUpdate_self (gd : GroupedData) (k : String) (g : Group) :
    totalD (gdUpdate gd k g k) = g.total_amount := by
  rw [gdUpdate_self]; simp [totalD]

theorem datesD_gdUpdate_self (gd : GroupedData) (k : String) (g : Group) :
    datesD (gdUpdate gd k g k) = g.dates := by
  rw [gdUpdate_self]; simp [datesD]

theorem mem_setAdd_self (l : List String) (s : String) : s ∈ setAdd l s := by
  by_cases h : s ∈ l <;> simp [setAdd, h]

theorem mem_setAdd_of_mem {l : List String} {a : String} (s : String) (h : a ∈ l) :
    a ∈ setAdd l s := by
  by_cases hs : s ∈ l <;> simp [setAdd, hs, h]

theorem mem_insertStr {a : String} (s : String) (l : List String) :
    a ∈ insertStr s l ↔ a = s ∨ a ∈ l := by
  induction l with
  | nil => simp [insertStr]
  | cons t ts ih =>
    by_cases h : listLt s.data t.data = true
    · simp [insertStr, h]
    · simp only [insertStr, if_neg h, List.mem_cons, ih]
      tauto

theorem mem_sortStr {a : String} (l : List String) : a ∈ sortStr l ↔ a ∈ l := by
  induction l with
  | nil => simp [sortStr]
  | cons s ss ih => simp [sortStr, mem_insertStr, ih]

theorem applyStd_raw (amount? : Option ℚ) (date? : Option String) (line : String) (g : Group) :
    (applyStd amount? date? line g).raw_contents = g.raw_contents ++ [line] := by
  cases amount? <;> cases date? <;> simp [applyStd]

theorem applyStd_count (amount? : Option ℚ) (date? : Option String) (line : String) (g : Group) :
    (applyStd amount? date? line g).transaction_count = g.transaction_count + 1 := by
  cases amount? <;> cases date? <;> simp [applyStd]

theorem applyStd_total_none (date? : Option String) (line : String) (g : Group) :
    (applyStd none date? line g).total_amount = g.total_amount := by
  cases date? <;> simp [applyStd]

theorem applyStd_total_some (a : ℚ) (date? : Option String) (line : String) (g : Group) :
    (applyStd (some a) date? line g).total_amount = g.total_amount + a := by
  cases date? <;> simp [applyStd]

theorem applyStd_dates_mono (amount? : Option ℚ) (date? : Option String) (line : String)
    (g : Group) {d : String} (h : d ∈ g.dates) :
    d ∈ (applyStd amount? date? line g).dates := by
  cases amount? <;> cases date? <;> simp [applyStd] <;>
    first
    | exact h
    | exact mem_setAdd_of_mem _ h

theorem applyStd_dates_some (amount? : Option ℚ) (dt : String) (line : String) (g : Group) :
    dt ∈ (applyStd amount? (some dt) line g).dates := by
  cases amount? <;> simp [applyStd] <;> exact mem_setAdd_self _ _

theorem applyCebuana_raw (amount? : Option ℚ) (date? : Option String) (line : String) (g : Group) :
    (applyCebuana amount? date? line g).raw_contents = g.raw_contents ++ [line] := by
  cases amount? <;> cases date? <;> simp [applyCebuana]

theorem applyCebuana_count (amount? : Option ℚ) (date? : Option String) (line : String) (g : Group) :
    (applyCebuana amount? date? line g).transaction_count = g.transaction_count + 1 := by
  cases amount? <;> cases date? <;> simp [applyCebuana]

theorem applyCebuana_total_none (date? : Option String) (line : String) (g : Group) :
    (applyCebuana none date? line g).total_amount = g.total_amount := by
  cases date? <;> simp [applyCebuana]

theorem applyCebuana_total_some (a : ℚ) (date? : Option String) (line : String) (g : Group) :
    (applyCebuana (some a) date? line g).total_amount = g.total_amount + a := by
  cases date? <;> simp [applyCebuana]

theorem applyCebuana_dates_some (amount? : Option ℚ) (dt : String) (line : String) (g : Group) :
    (applyCebuana amount? (some dt) line g).dates = [dt] := by
  cases amount? <;> simp [applyCebuana]

theorem applyWithRefs_raw (r : String) (amount? : Option ℚ) (date? : Option String)
    (line : String) (g : Group) :
    (applyWithRefs r amount? date? line g).raw_contents = g.raw_contents ++ [line] := by
  simp [applyWithRefs, applyStd_raw]

theorem applyWithRefs_count (r : String) (amount? : Option ℚ) (date? : Option String)
    (line : String) (g : Group) :
    (applyWithRefs r amount? date? line g).transaction_count = g.transaction_count + 1 := by
  simp [applyWithRefs, applyStd_count]

theorem applyWithRefs_total_none (r : String) (date? : Option String) (line : String) (g : Group) :
    (applyWithRefs r none date? line g).total_amount = g.total_amount := by
  simp [applyWithRefs, applyStd_total_none]

theorem applyWithRefs_total_some (r : String) (a : ℚ) (date? : Option String)
    (line : String) (g : Group) :
    (applyWithRefs r (some a) date? line g).total_amount = g.total_amount + a := by
  simp [applyWithRefs, applyStd_total_some]

theorem applyWithRefs_dates_mono (r : String) (amount? : Option ℚ) (date? : Option String)
    (line : String) (g : Group) {d : String} (h : d ∈ g.dates) :
    d ∈ (applyWithRefs r amount? date? line g).dates := by
  exact applyStd_dates_mono _ _ _ _ h

theorem applyWithRefs_dates_some (r : String) (amount? : Option ℚ) (dt : String)
    (line : String) (g : Group) :
    dt ∈ (applyWithRefs r amount? (some dt) line g).dates := by
  exact applyStd_dates_some _ _ _ _

theorem getOrInit_count (gd : GroupedData) (k mode : String) :
    (getOrInit gd k mode).transaction_count = countD (gd k) := by
  cases h : gd k <;> simp [getOrInit, countD, freshGroup, h]

theorem getOrInit_raw (gd : GroupedData) (k mode : String) :
    (getOrInit gd k mode).raw_contents = rawsD (gd k) := by
  cases h : gd k <;> simp [getOrInit, rawsD, freshGroup, h]

theorem getOrInit_total (gd : GroupedData) (k mode : String) :
    (getOrInit gd k mode).total_amount = totalD (gd k) := by
  cases h : gd k <;> simp [getOrInit, totalD, freshGroup, h]

theorem getOrInit_dates (gd : GroupedData) (k mode : String) :
    (getOrInit gd k mode).dates = datesD (gd k) := by
  cases h : gd k <;> simp [getOrInit, datesD, freshGroup, h]

theorem foldl_preserve {σ : Type} (P : σ → Prop) (step : σ → String → σ)
    (h : ∀ s l, P s → P (step s l)) :
    ∀ (ls : List String) (s : σ), P s → P (ls.foldl step s) := by
  intro ls
  induction ls with
  | nil => intro s hs; exact hs
  | cons a t ih => intro s hs; exact ih _ (h _ _ hs)

theorem foldl_preserve_of_mem {σ : Type} (P : σ → Prop) (step : σ → String → σ)
    (ls0 : List String) (h : ∀ s l, l ∈ ls0 → P s → P (step s l)) :
    ∀ (ls : List String), (∀ l ∈ ls, l ∈ ls0) → ∀ (s : σ), P s → P (ls.foldl step s) := by
  intro ls
  induction ls with
  | nil => intro _ s hs; exact hs
  | cons a t ih =>
    intro hsub s hs
    exact ih (fun l hl => hsub l (List.mem_cons_of_mem _ hl)) _
      (h _ _ (hsub a (List.mem_cons_self _ _)) hs)

end Lemmas

section StepLemmas

/-- Invariant: every group's count equals its number of buffered raw lines. -/
def CountEq (gd : GroupedData) : Prop :=
  ∀ k g, gd k = some g → g.transaction_count = g.raw_contents.length

/-- Invariant: every group's count is at most its number of buffered raw lines. -/
def CountLe (gd : GroupedData) : Prop :=
  ∀ k g, gd k = some g → g.transaction_count ≤ g.raw_contents.length

/-- Invariant: every buffered raw line satisfies `Q`. -/
def RawsFrom (Q : String → Prop) (gd : GroupedData) : Prop :=
  ∀ k l, l ∈ rawsD (gd k) → Q l

/-- Invariant: no group buffers the same line twice. -/
def RawsNodup (gd : GroupedData) : Prop :=
  ∀ k, (rawsD (gd k)).Nodup

theorem CountEq_empty : CountEq emptyGD := by
  intro k g h
  simp [emptyGD] at h

theorem CountLe_empty : CountLe emptyGD := by
  intro k g h
  simp [emptyGD] at h

theorem RawsFrom_empty (Q : String → Prop) : RawsFrom Q emptyGD := by
  intro k l h
  simp [emptyGD, rawsD] at h

theorem RawsNodup_empty : RawsNodup emptyGD := by
  intro k
  simp [emptyGD, rawsD]

theorem CountEq_gdUpdate {gd : GroupedData} {k : String} {g : Group}
    (h : CountEq gd) (hg : g.transaction_count = g.raw_contents.length) :
    CountEq (gdUpdate gd k g) := by
  intro k2 g2 hk2
  by_cases e : k2 = k
  · subst e; rw [gdUpdate_self] at hk2; cases hk2; exact hg
  · rw [gdUpdate_other _ _ _ _ e] at hk2; exact h _ _ hk2

theorem CountLe_gdUpdate {gd : GroupedData} {k : String} {g : Group}
    (h : CountLe gd) (hg : g.transaction_count ≤ g.raw_contents.length) :
    CountLe (gdUpdate gd k g) := by
  intro k2 g2 hk2
  by_cases e : k2 = k
  · subst e; rw [gdUpdate_self] at hk2; cases hk2; exact hg
  · rw [gdUpdate_other _ _ _ _ e] at hk2; exact h _ _ hk2

theorem RawsFrom_gdUpdate {Q : String → Prop} {gd : GroupedData} {k : String} {g : Group}
    (h : RawsFrom Q gd) (hg : ∀ l, l ∈ g.raw_contents → Q l) :
    RawsFrom Q (gdUpdate gd k g) := by
  intro k2 l hl
  by_cases e : k2 = k
  · subst e; rw [gdUpdate_self] at hl; exact hg l hl
  · rw [gdUpdate_other _ _ _ _ e] at hl; exact h _ _ hl

theorem RawsNodup_gdUpdate {gd : GroupedData} {k : String} {g : Group}
    (h : RawsNodup gd) (hg : g.raw_contents.Nodup) :
    RawsNodup (gdUpdate gd k g) := by
  intro k2
  by_cases e : k2 = k
  · subst e; rw [gdUpdate_self]; exact hg
  · rw [gdUpdate_other _ _ _ _ e]; exact h _

theorem getOrInit_countEq {gd : GroupedData} (h : CountEq gd) (k mode : String) :
    (getOrInit gd k mode).transaction_count = (getOrInit gd k mode).raw_contents.length := by
  cases hgd : gd k with
  | none => simp [getOrInit, hgd, freshGroup]
  | some b => simpa [getOrInit, hgd] using h k b hgd

/-- Case analysis for a standard channel step: it either leaves the grouped
data unchanged or updates exactly the key produced by the reference rule. -/
theorem mkStep_cases (mode : String) (ref? : String → Option String)
    (applyF : String → Group → Group) (gd : GroupedData) (line : String) :
    mkStep mode ref? applyF gd line = gd ∨
    ∃ k, ref? line = some k ∧ pyStrip line ≠ "" ∧
      mkStep mode ref? applyF gd line = gdUpdate gd k (applyF line (getOrInit gd k mode)) := by
  unfold mkStep
  split_ifs with hb
  · left; rfl
  · cases href : ref? line with
    | none => left; rfl
    | some k => right; exact ⟨k, rfl, hb, rfl⟩

/-- Case analysis for a grand-total channel step, projected to grouped data. -/
theorem mkStepTot_cases (mode : String) (ref? : String → Option String)
    (amount? : String → Option ℚ) (applyF : String → Group → Group)
    (st : GroupedData × ℚ) (line : String) :
    (mkStepTot mode ref? amount? applyF st line).1 = st.1 ∨
    ∃ k, ref? line = some k ∧ pyStrip line ≠ "" ∧
      (mkStepTot mode ref? amount? applyF st line).1
        = gdUpdate st.1 k (applyF line (getOrInit st.1 k mode)) := by
  unfold mkStepTot
  split_ifs with hb
  · left; rfl
  · cases href : ref? line with
    | none => left; rfl
    | some k =>
      right
      refine ⟨k, rfl, hb, ?_⟩
      cases ha : amount? line <;> simp

/-- Value of a standard channel step at the updated key. -/
theorem mkStep_at (mode : String) (ref? : String → Option String)
    (applyF : String → Group → Group) (gd : GroupedData) (line k : String)
    (hb : pyStrip line ≠ "") (hr : ref? line = some k) :
    mkStep mode ref? applyF gd line k = some (applyF line (getOrInit gd k mode)) := by
  unfold mkStep
  rw [if_neg hb, hr]
  exact gdUpdate_self _ _ _

/-- Value of a grand-total channel step at the updated key. -/
theorem mkStepTot_at (mode : String) (ref? : String → Option String)
    (amount? : String → Option ℚ) (applyF : String → Group → Group)
    (st : GroupedData × ℚ) (line k : String)
    (hb : pyStrip line ≠ "") (hr : ref? line = some k) :
    (mkStepTot mode ref? amount? applyF st line).1 k
      = some (applyF line (getOrInit st.1 k mode)) := by
  unfold mkStepTot
  rw [if_neg hb, hr]
  cases ha : amount? line <;> exact gdUpdate_self _ _ _

theorem mkStep_countEq (mode : String) (ref? : String → Option String)
    (applyF : String → Group → Group)
    (hC : ∀ l g, (applyF l g).transaction_count = g.transaction_count + 1)
    (hR : ∀ l g, (applyF l g).raw_contents = g.raw_contents ++ [l])
    {gd : GroupedData} (line : String) (h : CountEq gd) :
    CountEq (mkStep mode ref? applyF gd line) := by
  rcases mkStep_cases mode ref? applyF gd line with he | ⟨k, -, -, he⟩ <;> rw [he]
  · exact h
  · exact CountEq_gdUpdate h
      (by rw [hC, hR, List.length_append, getOrInit_countEq h]; rfl)

theorem mkStepTot_countEq (mode : String) (ref? : String → Option String)
    (amount? : String → Option ℚ) (applyF : String → Group → Group)
    (hC : ∀ l g, (applyF l g).transaction_count = g.transaction_count + 1)
    (hR : ∀ l g, (applyF l g).raw_contents = g.raw_contents ++ [l])
    {st : GroupedData × ℚ} (line : String) (h : CountEq st.1) :
    CountEq (mkStepTot mode ref? amount? applyF st line).1 := by
  rcases mkStepTot_cases mode ref? amount? applyF st line with he | ⟨k, -, -, he⟩ <;> rw [he]
  · exact h
  · exact CountEq_gdUpdate h
      (by rw [hC, hR, List.length_append, getOrInit_countEq h]; rfl)

theorem mkStep_rawsFrom (mode : String) (ref? : String → Option String)
    (applyF : String → Group → Group)
    (hR : ∀ l g, (applyF l g).raw_contents = g.raw_contents ++ [l])
    {Q : String → Prop} {gd : GroupedData} (line : String)
    (h : RawsFrom Q gd) (hline : pyStrip line ≠ "" → Q line) :
    RawsFrom Q (mkStep mode ref? applyF gd line) := by
  rcases mkStep_cases mode ref? applyF gd line with he | ⟨k, -, hb, he⟩ <;> rw [he]
  · exact h
  · refine RawsFrom_gdUpdate h ?_
    intro l hl
    rw [hR, List.mem_append] at hl
    rcases hl with h1 | h1
    · rw [getOrInit_raw] at h1; exact h k l h1
    · rw [List.mem_singleton] at h1; subst h1; exact hline hb

theorem mkStepTot_rawsFrom (mode : String) (ref? : String → Option String)
    (amount? : String → Option ℚ) (applyF : String → Group → Group)
    (hR : ∀ l g, (applyF l g).raw_contents = g.raw_contents ++ [l])
    {Q : String → Prop} {st : GroupedData × ℚ} (line : String)
    (h : RawsFrom Q st.1) (hline : pyStrip line ≠ "" → Q line) :
    RawsFrom Q (mkStepTot mode ref? amount? applyF st line).1 := by
  rcases mkStepTot_cases mode ref? amount? applyF st line with he | ⟨k, -, hb, he⟩ <;> rw [he]
  · exact h
  · refine RawsFrom_gdUpdate h ?_
    intro l hl
    rw [hR, List.mem_append] at hl
    rcases hl with h1 | h1
    · rw [getOrInit_raw] at h1; exact h k l h1
    · rw [List.mem_singleton] at h1; subst h1; exact hline hb

theorem mkStep_datesMono (mode : String) (ref? : String → Option String)
    (applyF : String → Group → Group)
    (hD : ∀ l g d, d ∈ g.dates → d ∈ (applyF l g).dates)
    (gd : GroupedData) (line k : String) {d : String} (hd : d ∈ datesD (gd k)) :
    d ∈ datesD (mkStep mode ref? applyF gd line k) := by
  rcases mkStep_cases mode ref? applyF gd line with he | ⟨k0, -, -, he⟩ <;> rw [he]
  · exact hd
  · by_cases e : k = k0
    · subst e
      rw [show gdUpdate gd k (applyF line (getOrInit gd k mode)) k
            = some (applyF line (getOrInit gd k mode)) from gdUpdate_self _ _ _]
      simp only [datesD, Option.map_some, Option.getD_some]
      exact hD _ _ _ (by rw [getOrInit_dates]; exact hd)
    · rw [gdUpdate_other _ _ _ _ e]; exact hd

theorem mkStepTot_datesMono (mode : String) (ref? : String → Option String)
    (amount? : String → Option ℚ) (applyF : String → Group → Group)
    (hD : ∀ l g d, d ∈ g.dates → d ∈ (applyF l g).dates)
    (st : GroupedData × ℚ) (line k : String) {d : String} (hd : d ∈ datesD (st.1 k)) :
    d ∈ datesD ((mkStepTot mode ref? amount? applyF st line).1 k) := by
  rcases mkStepTot_cases mode ref? amount? applyF st line with he | ⟨k0, -, -, he⟩ <;> rw [he]
  · exact hd
  · by_cases e : k = k0
    · subst e
      rw [show gdUpdate st.1 k (applyF line (getOrInit st.1 k mode)) k
            = some (applyF line (getOrInit st.1 k mode)) from gdUpdate_self _ _ _]
      simp only [datesD, Option.map_some, Option.getD_some]
      exact hD _ _ _ (by rw [getOrInit_dates]; exact hd)
    · rw [gdUpdate_other _ _ _ _ e]; exact hd

end StepLemmas

section UBLemmas

theorem ubEnsure_at (gd : GroupedData) (k : String) :
    ubEnsure gd k k = some (getOrInit gd k "UNIONBANK") := by
  cases h : gd k with
  | some g0 => simp [ubEnsure, h, getOrInit]
  | none => simp [ubEnsure, h, getOrInit]

theorem getD_ubEnsure_at (gd : GroupedData) (k : String) :
    ((ubEnsure gd k) k).getD (freshGroup "UNIONBANK") = getOrInit gd k "UNIONBANK" := by
  rw [ubEnsure_at]; rfl

theorem ubEnsure_other (gd : GroupedData) (k k2 : String) (h : k2 ≠ k) :
    ubEnsure gd k k2 = gd k2 := by
  unfold ubEnsure
  split_ifs with hs
  · rfl
  · exact gdUpdate_other _ _ _ _ h

theorem ubEnsure_countD (gd : GroupedData) (k k2 : String) :
    countD (ubEnsure gd k k2) = countD (gd k2) := by
  by_cases e : k2 = k
  · subst e
    rw [ubEnsure_at]
    cases h : gd k2 <;> simp [countD, getOrInit, h, freshGroup]
  · rw [ubEnsure_other _ _ _ e]

theorem ubEnsure_totalD (gd : GroupedData) (k k2 : String) :
    totalD (ubEnsure gd k k2) = totalD (gd k2) := by
  by_cases e : k2 = k
  · subst e
    rw [ubEnsure_at]
    cases h : gd k2 <;> simp [totalD, getOrInit, h, freshGroup]
  · rw [ubEnsure_other _ _ _ e]

theorem ubEnsure_datesD (gd : GroupedData) (k k2 : String) :
    datesD (ubEnsure gd k k2) = datesD (gd k2) := by
  by_cases e : k2 = k
  · subst e
    rw [ubEnsure_at]
    cases h : gd k2 <;> simp [datesD, getOrInit, h, freshGroup]
  · rw [ubEnsure_other _ _ _ e]

theorem ubEnsure_rawsD (gd : GroupedData) (k k2 : String) :
    rawsD (ubEnsure gd k k2) = rawsD (gd k2) := by
  by_cases e : k2 = k
  · subst e
    rw [ubEnsure_at]
    cases h : gd k2 <;> simp [rawsD, getOrInit, h, freshGroup]
  · rw [ubEnsure_other _ _ _ e]

theorem ubEnsure_countLe {gd : GroupedData} (h : CountLe gd) (k : String) :
    CountLe (ubEnsure gd k) := by
  intro k2 g2 h2
  by_cases e : k2 = k
  · subst e
    rw [ubEnsure_at] at h2
    cases h2
    cases hgd : gd k2 with
    | none => simp [getOrInit, hgd, freshGroup]
    | some b => simpa [getOrInit, hgd] using h k2 b hgd
  · rw [ubEnsure_other _ _ _ e] at h2
    exact h _ _ h2

theorem ubAppendDedup_dup {gd : GroupedData} {k line : String}
    (h : line ∈ rawsD (gd k)) : ubAppendDedup gd k line = gd := by
  unfold ubAppendDedup
  rw [if_pos]
  cases hgd : gd k with
  | none => rw [hgd] at h; simp [rawsD] at h
  | some g0 => rw [hgd] at h; simpa [rawsD] using h

theorem ubAppendDedup_new_at {gd : GroupedData} {k line : String}
    (h : line ∉ rawsD (gd k)) :
    ubAppendDedup gd k line k
      = some { getOrInit gd k "UNIONBANK" with
                raw_contents := rawsD (gd k) ++ [line] } := by
  unfold ubAppendDedup
  rw [if_neg]
  · rw [gdUpdate_self]
    cases hgd : gd k <;> simp [getOrInit, rawsD, hgd, freshGroup]
  · cases hgd : gd k with
    | none => simp [freshGroup]
    | some g0 => rw [hgd] at h; simpa [rawsD] using h

theorem ubAppendDedup_other (gd : GroupedData) (k k2 line : String) (h : k2 ≠ k) :
    ubAppendDedup gd k line k2 = gd k2 := by
  unfold ubAppendDedup
  split_ifs with hs
  · rfl
  · exact gdUpdate_other _ _ _ _ h

theorem ubAppendDedup_countD (gd : GroupedData) (k k2 line : String) :
    countD (ubAppendDedup gd k line k2) = countD (gd k2) := by
  by_cases hdup : line ∈ rawsD (gd k)
  · rw [ubAppendDedup_dup hdup]
  · by_cases e : k2 = k
    · subst e
      rw [ubAppendDedup_new_at hdup]
      cases hgd : gd k2 <;> simp [countD, getOrInit, hgd, freshGroup]
    · rw [ubAppendDedup_other _ _ _ _ e]

theorem ubAppendDedup_totalD (gd : GroupedData) (k k2 line : String) :
    totalD (ubAppendDedup gd k line k2) = totalD (gd k2) := by
  by_cases hdup : line ∈ rawsD (gd k)
  · rw [ubAppendDedup_dup hdup]
  · by_cases e : k2 = k
    · subst e
      rw [ubAppendDedup_new_at hdup]
      cases hgd : gd k2 <;> simp [totalD, getOrInit, hgd, freshGroup]
    · rw [ubAppendDedup_other _ _ _ _ e]

theorem ubAppendDedup_datesD (gd : GroupedData) (k k2 line : String) :
    datesD (ubAppendDedup gd k line k2) = datesD (gd k2) := by
  by_cases hdup : line ∈ rawsD (gd k)
  · rw [ubAppendDedup_dup hdup]
  · by_cases e : k2 = k
    · subst e
      rw [ubAppendDedup_new_at hdup]
      cases hgd : gd k2 <;> simp [datesD, getOrInit, hgd, freshGroup]
    · rw [ubAppendDedup_other _ _ _ _ e]

theorem ubAppendDedup_countLe {gd : GroupedData} (h : CountLe gd) (k line : String) :
    CountLe (ubAppendDedup gd k line) := by
  by_cases hdup : line ∈ rawsD (gd k)
  · rw [ubAppendDedup_dup hdup]; exact h
  · intro k2 g2 h2
    by_cases e : k2 = k
    · subst e
      rw [ubAppendDedup_new_at hdup] at h2
      cases h2
      simp only [List.length_append, List.length_singleton]
      refine le_trans ?_ (Nat.le_add_right _ _)
      cases hgd : gd k2 with
      | none => simp [getOrInit, hgd, freshGroup, rawsD]
      | some b =>
        simpa [getOrInit, hgd, rawsD] using h k2 b hgd
    · rw [ubAppendDedup_other _ _ _ _ e] at h2
      exact h _ _ h2

theorem ubApplyLong_raw (line : String) (g : Group) :
    (ubApplyLong line g).raw_contents = g.raw_contents ++ [line] := by
  unfold ubApplyLong
  cases ubAmount? line <;> cases ubDate? line <;> simp

theorem ubApplyLong_count (line : String) (g : Group) :
    (ubApplyLong line g).transaction_count = g.transaction_count + 1 := by
  unfold ubApplyLong
  cases ubAmount? line <;> cases ubDate? line <;> simp

theorem ubApplyLong_total_none {line : String} (h : ubAmount? line = none) (g : Group) :
    (ubApplyLong line g).total_amount = g.total_amount := by
  unfold ubApplyLong
  rw [h]
  cases ubDate? line <;> simp

theorem ubApplyLong_total_some {line : String} {a : ℚ} (h : ubAmount? line = some a) (g : Group) :
    (ubApplyLong line g).total_amount = g.total_amount + a := by
  unfold ubApplyLong
  rw [h]
  cases ubDate? line <;> simp

theorem ubApplyLong_dates_mono (line : String) (g : Group) {d : String} (h : d ∈ g.dates) :
    d ∈ (ubApplyLong line g).dates := by
  unfold ubApplyLong
  cases ubAmount? line <;> cases ubDate? line <;> simp <;>
    first
    | exact h
    | exact mem_setAdd_of_mem _ h

end UBLemmas

section UBStepLemmas

theorem isSome_of_mem_rawsD {gd : GroupedData} {k line : String}
    (h : line ∈ rawsD (gd k)) : (gd k).isSome = true := by
  cases hgd : gd k with
  | none => rw [hgd] at h; simp [rawsD] at h
  | some g => simp

theorem ubEnsure_of_isSome {gd : GroupedData} {k : String} (h : (gd k).isSome = true) :
    ubEnsure gd k = gd := by
  unfold ubEnsure
  rw [if_pos h]

theorem ubStep_countLe {st : UBState} (line : String) (h : CountLe st.gd) :
    CountLe (ubStep st line).gd := by
  unfold ubStep
  split_ifs with hb hlen
  · exact h
  · simp only
    split_ifs with hdup
    · exact ubEnsure_countLe h _
    · refine CountLe_gdUpdate (ubEnsure_countLe h _) ?_
      rw [ubApplyLong_count, ubApplyLong_raw, List.length_append]
      have hg : ((ubEnsure st.gd (ubComputeRef line)) (ubComputeRef line)).getD
          (freshGroup "UNIONBANK") = getOrInit st.gd (ubComputeRef line) "UNIONBANK" := by
        rw [ubEnsure_at]; rfl
      rw [hg]
      have h2 : (getOrInit st.gd (ubComputeRef line) "UNIONBANK").transaction_count
          ≤ (getOrInit st.gd (ubComputeRef line) "UNIONBANK").raw_contents.length := by
        cases hgd : st.gd (ubComputeRef line) with
        | none => simp [getOrInit, hgd, freshGroup]
        | some b => simpa [getOrInit, hgd] using h _ b hgd
      simpa using Nat.add_le_add h2 (le_refl 1)
  · cases hc : st.current with
    | none => exact ubAppendDedup_countLe (ubEnsure_countLe h _) _ _
    | some r =>
      simp only [ubOrphan]
      split_ifs with hsome
      · exact ubAppendDedup_countLe h _ _
      · exact ubAppendDedup_countLe (ubEnsure_countLe h _) _ _

theorem RawsFrom_ubEnsure {Q : String → Prop} {gd : GroupedData}
    (h : RawsFrom Q gd) (k : String) : RawsFrom Q (ubEnsure gd k) := by
  intro k2 l hl
  rw [ubEnsure_rawsD] at hl
  exact h _ _ hl

theorem RawsFrom_ubAppendDedup {Q : String → Prop} {gd : GroupedData} {line : String}
    (h : RawsFrom Q gd) (k : String) (hQ : Q line) :
    RawsFrom Q (ubAppendDedup gd k line) := by
  by_cases hdup : line ∈ rawsD (gd k)
  · rw [ubAppendDedup_dup hdup]; exact h
  · intro k2 l hl
    by_cases e : k2 = k
    · subst e
      rw [show rawsD (ubAppendDedup gd k2 line k2)
            = rawsD (gd k2) ++ [line] by rw [ubAppendDedup_new_at hdup]; simp [rawsD]] at hl
      rcases List.mem_append.1 hl with h1 | h1
      · exact h _ _ h1
      · rw [List.mem_singleton] at h1; subst h1; exact hQ
    · rw [show rawsD (ubAppendDedup gd k line k2) = rawsD (gd k2) by
          rw [ubAppendDedup_other _ _ _ _ e]] at hl
      exact h _ _ hl

theorem ubStep_rawsFrom {Q : String → Prop} {st : UBState} (line : String)
    (h : RawsFrom Q st.gd) (hline : pyStrip line ≠ "" → Q line) :
    RawsFrom Q (ubStep st line).gd := by
  unfold ubStep
  split_ifs with hb hlen
  · exact h
  · simp only
    split_ifs with hdup
    · exact RawsFrom_ubEnsure h _
    · refine RawsFrom_gdUpdate (RawsFrom_ubEnsure h _) ?_
      intro l hl
      rw [ubApplyLong_raw, List.mem_append] at hl
      rcases hl with h1 | h1
      · rw [getD_ubEnsure_at, getOrInit_raw] at h1
        exact h _ _ h1
      · rw [List.mem_singleton] at h1; subst h1; exact hline hb
  · cases hc : st.current with
    | none => exact RawsFrom_ubAppendDedup (RawsFrom_ubEnsure h _) _ (hline hb)
    | some r =>
      simp only [ubOrphan]
      split_ifs with hsome
      · exact RawsFrom_ubAppendDedup h _ (hline hb)
      · exact RawsFrom_ubAppendDedup (RawsFrom_ubEnsure h _) _ (hline hb)

theorem ubStep_datesMono {st : UBState} (line k : String) {d : String}
    (hd : d ∈ datesD (st.gd k)) : d ∈ datesD ((ubStep st line).gd k) := by
  unfold ubStep
  split_ifs with hb hlen
  · exact hd
  · simp only
    split_ifs with hdup
    · rw [ubEnsure_datesD]; exact hd
    · by_cases e : k = ubComputeRef line
      · rw [e] at hd ⊢
        rw [datesD_gdUpdate_self]
        refine ubApplyLong_dates_mono _ _ ?_
        rw [getD_ubEnsure_at, getOrInit_dates]
        exact hd
      · dsimp only
        rw [gdUpdate_other _ _ _ _ e, ubEnsure_datesD]; exact hd
  · cases hc : st.current with
    | none =>
      show d ∈ datesD (ubAppendDedup (ubEnsure st.gd "NOREF") "NOREF" line k)
      rw [ubAppendDedup_datesD, ubEnsure_datesD]; exact hd
    | some r =>
      simp only [ubOrphan]
      split_ifs with hsome
      · show d ∈ datesD (ubAppendDedup st.gd r line k)
        rw [ubAppendDedup_datesD]; exact hd
      · show d ∈ datesD (ubAppendDedup (ubEnsure st.gd "NOREF") "NOREF" line k)
        rw [ubAppendDedup_datesD, ubEnsure_datesD]; exact hd

theorem RawsNodup_ubEnsure {gd : GroupedData} (h : RawsNodup gd) (k : String) :
    RawsNodup (ubEnsure gd k) := by
  intro k2
  rw [ubEnsure_rawsD]
  exact h _

theorem RawsNodup_ubAppendDedup {gd : GroupedData} (h : RawsNodup gd) (k line : String) :
    RawsNodup (ubAppendDedup gd k line) := by
  by_cases hdup : line ∈ rawsD (gd k)
  · rw [ubAppendDedup_dup hdup]; exact h
  · intro k2
    by_cases e : k2 = k
    · subst e
      rw [show rawsD (ubAppendDedup gd k2 line k2)
            = rawsD (gd k2) ++ [line] by rw [ubAppendDedup_new_at hdup]; simp [rawsD]]
      rw [List.nodup_append]
      exact ⟨h _, List.nodup_singleton _, fun a ha hb2 => by
        rw [List.mem_singleton] at hb2; subst hb2; exact hdup ha⟩
    · rw [show rawsD (ubAppendDedup gd k line k2) = rawsD (gd k2) by
          rw [ubAppendDedup_other _ _ _ _ e]]
      exact h _

theorem ubStep_nodup {st : UBState} (line : String) (h : RawsNodup st.gd) :
    RawsNodup (ubStep st line).gd := by
  unfold ubStep
  split_ifs with hb hlen
  · exact h
  · simp only
    split_ifs with hdup
    · exact RawsNodup_ubEnsure h _
    · intro k2
      by_cases e : k2 = ubComputeRef line
      · rw [e]
        rw [rawsD_gdUpdate_self, ubApplyLong_raw, getD_ubEnsure_at, getOrInit_raw,
          List.nodup_append]
        refine ⟨h _, List.nodup_singleton _, fun a ha hb2 => ?_⟩
        rw [List.mem_singleton] at hb2
        subst hb2
        refine hdup ?_
        rw [getD_ubEnsure_at, getOrInit_raw]
        exact ha
      · dsimp only
        rw [gdUpdate_other _ _ _ _ e, ubEnsure_rawsD]
        exact h _
  · cases hc : st.current with
    | none => exact RawsNodup_ubAppendDedup (RawsNodup_ubEnsure h _) _ _
    | some r =>
      simp only [ubOrphan]
      split_ifs with hsome
      · exact RawsNodup_ubAppendDedup h _ _
      · exact RawsNodup_ubAppendDedup (RawsNodup_ubEnsure h _) _ _

end UBStepLemmas

section UBStepMore

theorem mem_getD_of_mem_rawsD {gd : GroupedData} {k line : String}
    (h : line ∈ rawsD (gd k)) :
    line ∈ ((gd k).getD (freshGroup "UNIONBANK")).raw_contents := by
  cases hgd : gd k with
  | none => rw [hgd] at h; simp [rawsD] at h
  | some g0 => rw [hgd] at h; simpa [rawsD] using h

theorem rawsD_ubAppendDedup_new {gd : GroupedData} {k line : String}
    (h : line ∉ rawsD (gd k)) :
    rawsD (ubAppendDedup gd k line k) = rawsD (gd k) ++ [line] := by
  rw [ubAppendDedup_new_at h]
  simp [rawsD]

theorem rawsD_ubAppendDedup_other (gd : GroupedData) (k k2 line : String) (h : k2 ≠ k) :
    rawsD (ubAppendDedup gd k line k2) = rawsD (gd k2) := by
  rw [ubAppendDedup_other _ _ _ _ h]

theorem ubStep_dup_noop {st : UBState} {line : String} (hb : pyStrip line ≠ "")
    (hdup : line ∈ rawsD (st.gd (ubTarget st line))) :
    (ubStep st line).gd = st.gd := by
  unfold ubStep
  rw [if_neg hb]
  unfold ubTarget at hdup
  by_cases hlen : 200 ≤ line.length
  · rw [if_pos hlen]
    rw [if_pos hlen] at hdup
    simp only
    rw [ubEnsure_of_isSome (isSome_of_mem_rawsD hdup)]
    rw [if_pos (mem_getD_of_mem_rawsD hdup)]
  · rw [if_neg hlen]
    rw [if_neg hlen] at hdup
    cases hc : st.current with
    | none =>
      rw [hc] at hdup
      simp only at hdup ⊢
      show (ubOrphan st line).gd = st.gd
      unfold ubOrphan
      simp only
      rw [ubEnsure_of_isSome (isSome_of_mem_rawsD hdup),
        ubAppendDedup_dup hdup]
    | some r =>
      rw [hc] at hdup
      simp only at hdup ⊢
      by_cases hsome : (st.gd r).isSome = true
      · rw [if_pos hsome] at hdup
        rw [if_pos hsome]
        show (ubAppendDedup st.gd r line) = st.gd
        exact ubAppendDedup_dup hdup
      · rw [if_neg hsome] at hdup
        rw [if_neg hsome]
        show (ubOrphan st line).gd = st.gd
        unfold ubOrphan
        simp only
        rw [ubEnsure_of_isSome (isSome_of_mem_rawsD hdup),
          ubAppendDedup_dup hdup]

theorem ubStep_short {st : UBState} {line : String} (hb : pyStrip line ≠ "")
    (hlen : ¬ 200 ≤ line.length) :
    (ubStep st line).current = st.current ∧
    (∀ k, countD ((ubStep st line).gd k) = countD (st.gd k)) ∧
    (∀ k, totalD ((ubStep st line).gd k) = totalD (st.gd k)) ∧
    (∀ k, datesD ((ubStep st line).gd k) = datesD (st.gd k)) ∧
    (line ∉ rawsD (st.gd (ubTarget st line)) →
      rawsD ((ubStep st line).gd (ubTarget st line))
        = rawsD (st.gd (ubTarget st line)) ++ [line]) ∧
    (∀ k, k ≠ ubTarget st line → rawsD ((ubStep st line).gd k) = rawsD (st.gd k)) := by
  have hstep : ubStep st line
      = (match st.current with
         | some r =>
           if (st.gd r).isSome = true then { st with gd := ubAppendDedup st.gd r line }
           else ubOrphan st line
         | none => ubOrphan st line) := by
    unfold ubStep
    rw [if_neg hb, if_neg hlen]
  have htgt : ubTarget st line
      = (match st.current with
         | some r => if (st.gd r).isSome = true then r else "NOREF"
         | none => "NOREF") := by
    unfold ubTarget
    rw [if_neg hlen]
  have horphan : ∀ st2 : UBState, st2.gd = st.gd →
      (ubOrphan st2 line).current = st2.current ∧
      (∀ k, countD ((ubOrphan st2 line).gd k) = countD (st.gd k)) ∧
      (∀ k, totalD ((ubOrphan st2 line).gd k) = totalD (st.gd k)) ∧
      (∀ k, datesD ((ubOrphan st2 line).gd k) = datesD (st.gd k)) ∧
      (line ∉ rawsD (st.gd "NOREF") →
        rawsD ((ubOrphan st2 line).gd "NOREF") = rawsD (st.gd "NOREF") ++ [line]) ∧
      (∀ k, k ≠ "NOREF" → rawsD ((ubOrphan st2 line).gd k) = rawsD (st.gd k)) := by
    intro st2 hgd2
    unfold ubOrphan
    refine ⟨rfl, ?_, ?_, ?_, ?_, ?_⟩
    · intro k; dsimp only; rw [hgd2, ubAppendDedup_countD, ubEnsure_countD]
    · intro k; dsimp only; rw [hgd2, ubAppendDedup_totalD, ubEnsure_totalD]
    · intro k; dsimp only; rw [hgd2, ubAppendDedup_datesD, ubEnsure_datesD]
    · intro hnd
      dsimp only
      rw [hgd2]
      have : line ∉ rawsD (ubEnsure st.gd "NOREF" "NOREF") := by
        rw [ubEnsure_rawsD]; exact hnd
      rw [rawsD_ubAppendDedup_new this, ubEnsure_rawsD]
    · intro k hk
      dsimp only
      rw [hgd2, rawsD_ubAppendDedup_other _ _ _ _ hk, ubEnsure_rawsD]
  cases hc : st.current with
  | none =>
    rw [hc] at hstep htgt
    simp only at hstep htgt
    rw [hstep, htgt]
    have h0 := horphan st rfl
    exact ⟨by rw [h0.1, hc], h0.2.1, h0.2.2.1, h0.2.2.2.1, h0.2.2.2.2.1, h0.2.2.2.2.2⟩
  | some r =>
    rw [hc] at hstep htgt
    simp only at hstep htgt
    by_cases hsome : (st.gd r).isSome = true
    · rw [if_pos hsome] at hstep htgt
      rw [hstep, htgt]
      refine ⟨rfl, ?_, ?_, ?_, ?_, ?_⟩
      · intro k; dsimp only; rw [ubAppendDedup_countD]
      · intro k; dsimp only; rw [ubAppendDedup_totalD]
      · intro k; dsimp only; rw [ubAppendDedup_datesD]
      · intro hnd; dsimp only; rw [rawsD_ubAppendDedup_new hnd]
      · intro k hk; dsimp only; rw [rawsD_ubAppendDedup_other _ _ _ _ hk]
    · rw [if_neg hsome] at hstep htgt
      rw [hstep, htgt]
      have h0 := horphan st rfl
      exact ⟨by rw [h0.1, hc], h0.2.1, h0.2.2.1, h0.2.2.2.1, h0.2.2.2.2.1, h0.2.2.2.2.2⟩

theorem ubStep_long {st : UBState} {line : String} (hb : pyStrip line ≠ "")
    (hlen : 200 ≤ line.length)
    (hdup : line ∉ rawsD (st.gd (ubComputeRef line))) :
    (ubStep st line).current = some (ubComputeRef line) ∧
    (ubStep st line).gd (ubComputeRef line)
      = some (ubApplyLong line (getOrInit st.gd (ubComputeRef line) "UNIONBANK")) ∧
    (∀ k, k ≠ ubComputeRef line → (ubStep st line).gd k = st.gd k) := by
  have hmem : line ∉ ((ubEnsure st.gd (ubComputeRef line) (ubComputeRef line)).getD
      (freshGroup "UNIONBANK")).raw_contents := by
    rw [getD_ubEnsure_at, getOrInit_raw]
    exact hdup
  have hstep : ubStep st line
      = { current := some (ubComputeRef line),
          gd := gdUpdate (ubEnsure st.gd (ubComputeRef line)) (ubComputeRef line)
            (ubApplyLong line
              ((ubEnsure st.gd (ubComputeRef line) (ubComputeRef line)).getD
                (freshGroup "UNIONBANK"))) } := by
    unfold ubStep
    rw [if_neg hb, if_pos hlen]
    simp only
    rw [if_neg hmem]
  rw [hstep]
  refine ⟨rfl, ?_, ?_⟩
  · dsimp only
    rw [gdUpdate_self, getD_ubEnsure_at]
  · intro k hk
    dsimp only
    rw [gdUpdate_other _ _ _ _ hk, ubEnsure_other _ _ _ hk]

end UBStepMore

section FinalizeLemmas

theorem finalizeDates_raws (gd : GroupedData) (k : String) :
    rawsD (finalizeDates gd k) = rawsD (gd k) := by
  cases h : gd k <;> simp [finalizeDates, rawsD, h]

theorem finalizeDates_count (gd : GroupedData) (k : String) :
    countD (finalizeDates gd k) = countD (gd k) := by
  cases h : gd k <;> simp [finalizeDates, countD, h]

theorem finalizeDates_total (gd : GroupedData) (k : String) :
    totalD (finalizeDates gd k) = totalD (gd k) := by
  cases h : gd k <;> simp [finalizeDates, totalD, h]

theorem finalizeDates_dates_mem (gd : GroupedData) (k d : String) :
    d ∈ datesD (finalizeDates gd k) ↔ d ∈ datesD (gd k) := by
  cases h : gd k <;> simp [finalizeDates, datesD, h, mem_sortStr]

theorem finalizeDates_countEq {gd : GroupedData} (h : CountEq gd) :
    CountEq (finalizeDates gd) := by
  intro k g hk
  unfold finalizeDates at hk
  cases hgd : gd k with
  | none => rw [hgd] at hk; exact Option.noConfusion hk
  | some g0 =>
    rw [hgd] at hk
    injection hk with hk2
    subst hk2
    simpa using h _ _ hgd

theorem finalizeDates_countLe {gd : GroupedData} (h : CountLe gd) :
    CountLe (finalizeDates gd) := by
  intro k g hk
  unfold finalizeDates at hk
  cases hgd : gd k with
  | none => rw [hgd] at hk; exact Option.noConfusion hk
  | some g0 =>
    rw [hgd] at hk
    injection hk with hk2
    subst hk2
    simpa using h _ _ hgd

theorem finalizeDates_rawsFrom {Q : String → Prop} {gd : GroupedData} (h : RawsFrom Q gd) :
    RawsFrom Q (finalizeDates gd) := by
  intro k l hl
  rw [finalizeDates_raws] at hl
  exact h _ _ hl

theorem finalizeDates_nodup {gd : GroupedData} (h : RawsNodup gd) :
    RawsNodup (finalizeDates gd) := by
  intro k
  rw [finalizeDates_raws]
  exact h _

end FinalizeLemmas

section ClaimC4

/-- Modelled from the spec's words: classification is a case-insensitive
substring match against an ordered alias table, first hit wins, `"Unknown"`
when nothing matches. -/
def classifyByTable : List (String × String) → String → String
  | [], _ => "Unknown"
  | a :: t, f => if pyIn a.1 (pyUpper f) then a.2 else classifyByTable t f

/-- The alias table that the code's `if`/`elif` chain actually implements, in
the code's order. The spec aliases `METRO`, `UNION BANK`, `EC PAY`,
`ROBINSONS BANK`, `ROBINSON BANK` and `ROBINSONS_BANK` have no entry of their
own (the three `ROB*BANK` forms still match through their `ROB` substring,
the first three match nothing). -/
def codeAliasTable : List (String × String) :=
  [("ECPAY", "ECPAY"), ("BDO", "BDO"), ("CEBUANA", "CEBUANA"), ("PERALINK", "PERALINK"),
   ("CHINABANK", "CHINABANK"), ("CHINA BANK", "CHINABANK"), ("CIS", "CIS"),
   ("METROBANK", "METROBANK"), ("METRO BANK", "METROBANK"), ("PNB", "PNB"),
   ("UB", "UNIONBANK"), ("UNIONBANK", "UNIONBANK"), ("SM", "SM"), ("BANCNET", "BANCNET"),
   ("ROB", "ROB"), ("ROBINSONS", "ROB"), ("ROBINSON", "ROB")]

theorem detect_eq_table (f : String) :
    detect_payment_mode_from_filename f = classifyByTable codeAliasTable f := by
  unfold detect_payment_mode_from_filename
  simp only [codeAliasTable]
  cases h1 : pyIn "ECPAY" (pyUpper f) with
  | true => simp [classifyByTable, h1]
  | false =>
  cases h2 : pyIn "BDO" (pyUpper f) with
  | true => simp [classifyByTable, h1, h2]
  | false =>
  cases h3 : pyIn "CEBUANA" (pyUpper f) with
  | true => simp [classifyByTable, h1, h2, h3]
  | false =>
  cases h4 : pyIn "PERALINK" (pyUpper f) with
  | true => simp [classifyByTable, h1, h2, h3, h4]
  | false =>
  cases h5 : pyIn "CHINABANK" (pyUpper f) with
  | true => simp [classifyByTable, h1, h2, h3, h4, h5]
  | false =>
  cases h6 : pyIn "CHINA BANK" (pyUpper f) with
  | true => simp [classifyByTable, h1, h2, h3, h4, h5, h6]
  | false =>
  cases h7 : pyIn "CIS" (pyUpper f) with
  | true => simp [classifyByTable, h1, h2, h3, h4, h5, h6, h7]
  | false =>
  cases h8 : pyIn "METROBANK" (pyUpper f) with
  | true => simp [classifyByTable, h1, h2, h3, h4, h5, h6, h7, h8]
  | false =>
  cases h9 : pyIn "METRO BANK" (pyUpper f) with
  | true => simp [classifyByTable, h1, h2, h3, h4, h5, h6, h7, h8, h9]
  | false =>
  cases h10 : pyIn "PNB" (pyUpper f) with
  | true => simp [classifyByTable, h1, h2, h3, h4, h5, h6, h7, h8, h9, h10]
  | false =>
  cases h11 : pyIn "UB" (pyUpper f) with
  | true => simp [classifyByTable, h1, h2, h3, h4, h5, h6, h7, h8, h9, h10, h11]
  | false =>
  cases h12 : pyIn "UNIONBANK" (pyUpper f) with
  | true => simp [classifyByTable, h1, h2, h3, h4, h5, h6, h7, h8, h9, h10, h11, h12]
  | false =>
  cases h13 : pyIn "SM" (pyUpper f) with
  | true => simp [classifyByTable, h1, h2, h3, h4, h5, h6, h7, h8, h9, h10, h11, h12, h13]
  | false =>
  cases h14 : pyIn "BANCNET" (pyUpper f) with
  | true => simp [classifyByTable, h1, h2, h3, h4, h5, h6, h7, h8, h9, h10, h11, h12, h13, h14]
  | false =>
  cases h15 : pyIn "ROB" (pyUpper f) with
  | true => simp [classifyByTable, h1, h2, h3, h4, h5, h6, h7, h8, h9, h10, h11, h12, h13, h14, h15]
  | false =>
  cases h16 : pyIn "ROBINSONS" (pyUpper f) with
  | true => simp [classifyByTable, h1, h2, h3, h4, h5, h6, h7, h8, h9, h10, h11, h12, h13, h14, h15, h16]
  | false =>
  cases h17 : pyIn "ROBINSON" (pyUpper f) with
  | true => simp [classifyByTable, h1, h2, h3, h4, h5, h6, h7, h8, h9, h10, h11, h12, h13, h14, h15, h16, h17]
  | false => simp [classifyByTable, h1, h2, h3, h4, h5, h6, h7, h8, h9, h10, h11, h12, h13, h14, h15, h16, h17]

/-- Claim C4 is false as stated: the spec aliases `UNION BANK`, `METRO` and
`EC PAY` classify to `"Unknown"` rather than to their channels, and the match
order is the code's (`ECPAY` first), not the spec's (`BDO` first): a filename
containing both `BDO` and `ECPAY` classifies as `ECPAY`. -/
theorem C4_counterexample :
    detect_payment_mode_from_filename "UNION BANK" = "Unknown" ∧
    detect_payment_mode_from_filename "METRO" = "Unknown" ∧
    detect_payment_mode_from_filename "EC PAY" = "Unknown" ∧
    detect_payment_mode_from_filename "BDO ECPAY" = "ECPAY" ∧
    ("Unknown" : String) ≠ "UNIONBANK" ∧ ("ECPAY" : String) ≠ "BDO" := by
  decide

/-- Claim C4 (amended): for every filename, classification is a
case-insensitive substring match with the first hit winning over the code's
alias table (`ECPAY`; `BDO`; `CEBUANA`; `PERALINK`; `CHINABANK`/`CHINA BANK`;
`CIS`; `METROBANK`/`METRO BANK`; `PNB`; `UB`/`UNIONBANK`; `SM`; `BANCNET`;
`ROB`/`ROBINSONS`/`ROBINSON`). The spec aliases `UB`, `CEBUANA LHUILLIER`,
`CEBUANA LHUILIER`, `ROBINSON`, `ROBINSONS BANK`, `METRO BANK` and
`CHINA BANK` do map to their channels; `METRO`, `UNION BANK` and `EC PAY`
do not (see the counterexample). -/
theorem C4_amended :
    (∀ filename : String,
      detect_payment_mode_from_filename filename = classifyByTable codeAliasTable filename) ∧
    detect_payment_mode_from_filename "UB" = "UNIONBANK" ∧
    detect_payment_mode_from_filename "cebuana lhuillier" = "CEBUANA" ∧
    detect_payment_mode_from_filename "CEBUANA LHUILIER" = "CEBUANA" ∧
    detect_payment_mode_from_filename "ROBINSON" = "ROB" ∧
    detect_payment_mode_from_filename "ROBINSONS BANK" = "ROB" ∧
    detect_payment_mode_from_filename "METRO BANK" = "METROBANK" ∧
    detect_payment_mode_from_filename "CHINA BANK" = "CHINABANK" :=
  ⟨fun f => detect_eq_table f, by decide, by decide, by decide, by decide, by decide,
    by decide, by decide⟩

end ClaimC4

section ClaimC5

/-- Strategy 1 of the UNIONBANK reference rule: last match of
`\s{10,}(\d{14})\s+`, first four digits. -/
def ubStrategy1 (line : String) : Option String :=
  ((ubScan1 line.data).getLast?).map (fun ds => pyTake 4 ⟨ds⟩)

/-- Strategy 2 of the UNIONBANK reference rule: first match of
`\s{10,}(\d{4,})\s+`, first four digits. -/
def ubStrategy2 (line : String) : Option String :=
  (ubScan2 line.data).map (fun ds => pyTake 4 ⟨ds⟩)

/-- Strategy 3 of the UNIONBANK reference rule: first four digits of
whitespace-split field 4, requiring four digits. -/
def ubStrategy3 (line : String) : Option String :=
  let fields := pySplitWs (pyStrip line)
  if 4 < fields.length then
    let clean_ref := pyTake 4 (digitsOf (fields.getD 4 ""))
    if 4 ≤ clean_ref.length then some clean_ref else none
  else none

/-- A 200-character UNIONBANK line on which all three reference strategies
fail. -/
def aLine : String := ⟨List.replicate 200 'A'⟩

/-- Claim C5 is false as stated: on a 200-character line with no reference
pattern at all, the code assigns the group key `"0000"`, not the sentinel
`NOREF` -- the `NOREF` group is never created. -/
theorem C5_counterexample :
    processFileContent aLine "UNIONBANK" "NOREF" = none ∧
    rawsD (processFileContent aLine "UNIONBANK" "0000") = [aLine] ∧
    ("0000" : String) ≠ "NOREF" :=
  ⟨by decide, by decide, by decide⟩

/-- Claim C5 (amended): for every reference-bearing UNIONBANK line (length at
least 200), the key is computed by trying, in order, the trailing
`\s{10,}(\d{14})\s+` pattern (last match, first four digits), then the
fallback `\s{10,}(\d{4,})\s+` pattern (first four digits), then the digits of
whitespace-split field 4 (first four); when all three strategies fail the
line is assigned the key `"0000"` (not `NOREF`). The computed key becomes the
current reference and its group exists afterwards. -/
theorem C5_amended :
    (∀ line : String,
      ubComputeRef line =
        match ubStrategy1 line with
        | some k => k
        | none =>
          match ubStrategy2 line with
          | some k => k
          | none => (ubStrategy3 line).getD "0000") ∧
    (∀ st line, pyStrip line ≠ "" → 200 ≤ line.length →
      (ubStep st line).current = some (ubComputeRef line) ∧
      ((ubStep st line).gd (ubComputeRef line)).isSome = true) := by
  constructor
  · intro line
    unfold ubComputeRef ubStrategy1 ubStrategy2 ubStrategy3
    cases h1 : (ubScan1 line.data).getLast? with
    | some ds => simp
    | none =>
      cases h2 : ubScan2 line.data with
      | some ds => simp
      | none =>
        simp only [Option.map_none]
        split_ifs with ha hb <;> simp
  · intro st line hb hlen
    by_cases hdup : line ∈ rawsD (st.gd (ubComputeRef line))
    · constructor
      · unfold ubStep
        rw [if_neg hb, if_pos hlen]
        simp only
        split_ifs <;> rfl
      · unfold ubStep
        rw [if_neg hb, if_pos hlen]
        simp only
        split_ifs with hmem
        · dsimp only
          rw [ubEnsure_at]
          rfl
        · dsimp only
          rw [gdUpdate_self]
          rfl
    · exact ⟨(ubStep_long hb hlen hdup).1, by rw [(ubStep_long hb hlen hdup).2.1]; rfl⟩

/-- A 200-character UNIONBANK line whose first strategy succeeds with the
14-digit reference `98765432109876`. -/
def cW : String :=
  ⟨List.replicate 140 'Y' ++ List.replicate 12 ' ' ++ "98765432109876".data ++
    List.replicate 4 ' ' ++ List.replicate 30 'Z'⟩

/-- Witness for C5 at a concrete reference-bearing line. -/
theorem C5_witness :
    (ubStep { current := none, gd := emptyGD } cW).current = some (ubComputeRef cW) ∧
    ((ubStep { current := none, gd := emptyGD } cW).gd (ubComputeRef cW)).isSome = true :=
  C5_amended.2 { current := none, gd := emptyGD } cW (by decide) (by decide)

end ClaimC5

section ChannelLemmas

theorem cisStep_countEq {gd : GroupedData} (l : String) (h : CountEq gd) :
    CountEq (cisStep gd l) :=
  mkStep_countEq "CIS" cisRef? (fun line => applyStd (cisAmount? line) (cisDate? line) line)
    (fun _ _ => applyStd_count _ _ _ _) (fun _ _ => applyStd_raw _ _ _ _) l h

theorem cisStep_rawsFrom {Q : String → Prop} {gd : GroupedData} (l : String)
    (h : RawsFrom Q gd) (hl : pyStrip l ≠ "" → Q l) : RawsFrom Q (cisStep gd l) :=
  mkStep_rawsFrom "CIS" cisRef? (fun line => applyStd (cisAmount? line) (cisDate? line) line)
    (fun _ _ => applyStd_raw _ _ _ _) l h hl

theorem cisStep_datesMono (gd : GroupedData) (l k : String) {d : String}
    (hd : d ∈ datesD (gd k)) : d ∈ datesD (cisStep gd l k) :=
  mkStep_datesMono "CIS" cisRef? (fun line => applyStd (cisAmount? line) (cisDate? line) line)
    (fun _ _ _ hd2 => applyStd_dates_mono _ _ _ _ hd2) gd l k hd

theorem pnbStep_countEq {gd : GroupedData} (l : String) (h : CountEq gd) :
    CountEq (pnbStep gd l) :=
  mkStep_countEq "PNB" pnbRef? (fun line => applyStd (pnbAmount? line) (pnbDate? line) line)
    (fun _ _ => applyStd_count _ _ _ _) (fun _ _ => applyStd_raw _ _ _ _) l h

theorem pnbStep_rawsFrom {Q : String → Prop} {gd : GroupedData} (l : String)
    (h : RawsFrom Q gd) (hl : pyStrip l ≠ "" → Q l) : RawsFrom Q (pnbStep gd l) :=
  mkStep_rawsFrom "PNB" pnbRef? (fun line => applyStd (pnbAmount? line) (pnbDate? line) line)
    (fun _ _ => applyStd_raw _ _ _ _) l h hl

theorem pnbStep_datesMono (gd : GroupedData) (l k : String) {d : String}
    (hd : d ∈ datesD (gd k)) : d ∈ datesD (pnbStep gd l k) :=
  mkStep_datesMono "PNB" pnbRef? (fun line => applyStd (pnbAmount? line) (pnbDate? line) line)
    (fun _ _ _ hd2 => applyStd_dates_mono _ _ _ _ hd2) gd l k hd

theorem bdoStep_countEq {gd : GroupedData} (l : String) (h : CountEq gd) :
    CountEq (bdoStep gd l) :=
  mkStep_countEq "BDO" bdoRef? (fun line => applyStd (bdoAmount? line) (bdoDate? line) line)
    (fun _ _ => applyStd_count _ _ _ _) (fun _ _ => applyStd_raw _ _ _ _) l h

theorem bdoStep_rawsFrom {Q : String → Prop} {gd : GroupedData} (l : String)
    (h : RawsFrom Q gd) (hl : pyStrip l ≠ "" → Q l) : RawsFrom Q (bdoStep gd l) :=
  mkStep_rawsFrom "BDO" bdoRef? (fun line => applyStd (bdoAmount? line) (bdoDate? line) line)
    (fun _ _ => applyStd_raw _ _ _ _) l h hl

theorem bdoStep_datesMono (gd : GroupedData) (l k : String) {d : String}
    (hd : d ∈ datesD (gd k)) : d ∈ datesD (bdoStep gd l k) :=
  mkStep_datesMono "BDO" bdoRef? (fun line => applyStd (bdoAmount? line) (bdoDate? line) line)
    (fun _ _ _ hd2 => applyStd_dates_mono _ _ _ _ hd2) gd l k hd

theorem ecpayStep_countEq {gd : GroupedData} (l : String) (h : CountEq gd) :
    CountEq (ecpayStep gd l) :=
  mkStep_countEq "ECPAY" ecpayRef? (fun line => applyStd (ecpayAmount? line) (ecpayDate? line) line)
    (fun _ _ => applyStd_count _ _ _ _) (fun _ _ => applyStd_raw _ _ _ _) l h

theorem ecpayStep_rawsFrom {Q : String → Prop} {gd : GroupedData} (l : String)
    (h : RawsFrom Q gd) (hl : pyStrip l ≠ "" → Q l) : RawsFrom Q (ecpayStep gd l) :=
  mkStep_rawsFrom "ECPAY" ecpayRef? (fun line => applyStd (ecpayAmount? line) (ecpayDate? line) line)
    (fun _ _ => applyStd_raw _ _ _ _) l h hl

theorem ecpayStep_datesMono (gd : GroupedData) (l k : String) {d : String}
    (hd : d ∈ datesD (gd k)) : d ∈ datesD (ecpayStep gd l k) :=
  mkStep_datesMono "ECPAY" ecpayRef? (fun line => applyStd (ecpayAmount? line) (ecpayDate? line) line)
    (fun _ _ _ hd2 => applyStd_dates_mono _ _ _ _ hd2) gd l k hd

theorem chinabankStep_countEq {gd : GroupedData} (l : String) (h : CountEq gd) :
    CountEq (chinabankStep gd l) :=
  mkStep_countEq "CHINABANK" chinabankRef? (fun line => applyStd (chinabankAmount? line) (chinabankDate? line) line)
    (fun _ _ => applyStd_count _ _ _ _) (fun _ _ => applyStd_raw _ _ _ _) l h

theorem chinabankStep_rawsFrom {Q : String → Prop} {gd : GroupedData} (l : String)
    (h : RawsFrom Q gd) (hl : pyStrip l ≠ "" → Q l) : RawsFrom Q (chinabankStep gd l) :=
  mkStep_rawsFrom "CHINABANK" chinabankRef? (fun line => applyStd (chinabankAmount? line) (chinabankDate? line) line)
    (fun _ _ => applyStd_raw _ _ _ _) l h hl

theorem chinabankStep_datesMono (gd : GroupedData) (l k : String) {d : String}
    (hd : d ∈ datesD (gd k)) : d ∈ datesD (chinabankStep gd l k) :=
  mkStep_datesMono "CHINABANK" chinabankRef? (fun line => applyStd (chinabankAmount? line) (chinabankDate? line) line)
    (fun _ _ _ hd2 => applyStd_dates_mono _ _ _ _ hd2) gd l k hd

theorem cebuanaStep_countEq {gd : GroupedData} (l : String) (h : CountEq gd) :
    CountEq (cebuanaStep gd l) :=
  mkStep_countEq "CEBUANA" cebuanaRef? (fun line => applyCebuana (cebuanaAmount? line) (cebuanaDate? line) line)
    (fun _ _ => applyCebuana_count _ _ _ _) (fun _ _ => applyCebuana_raw _ _ _ _) l h

theorem cebuanaStep_rawsFrom {Q : String → Prop} {gd : GroupedData} (l : String)
    (h : RawsFrom Q gd) (hl : pyStrip l ≠ "" → Q l) : RawsFrom Q (cebuanaStep gd l) :=
  mkStep_rawsFrom "CEBUANA" cebuanaRef? (fun line => applyCebuana (cebuanaAmount? line) (cebuanaDate? line) line)
    (fun _ _ => applyCebuana_raw _ _ _ _) l h hl

theorem mbStep_countEq {st : GroupedData × ℚ} (l : String) (h : CountEq st.1) :
    CountEq (mbStep st l).1 :=
  mkStepTot_countEq "METROBANK" mbRef? mbAmount? (fun line => applyStd (mbAmount? line) (mbDate? line) line)
    (fun _ _ => applyStd_count _ _ _ _) (fun _ _ => applyStd_raw _ _ _ _) l h

theorem mbStep_rawsFrom {Q : String → Prop} {st : GroupedData × ℚ} (l : String)
    (h : RawsFrom Q st.1) (hl : pyStrip l ≠ "" → Q l) : RawsFrom Q (mbStep st l).1 :=
  mkStepTot_rawsFrom "METROBANK" mbRef? mbAmount? (fun line => applyStd (mbAmount? line) (mbDate? line) line)
    (fun _ _ => applyStd_raw _ _ _ _) l h hl

theorem mbStep_datesMono (st : GroupedData × ℚ) (l k : String) {d : String}
    (hd : d ∈ datesD (st.1 k)) : d ∈ datesD ((mbStep st l).1 k) :=
  mkStepTot_datesMono "METROBANK" mbRef? mbAmount? (fun line => applyStd (mbAmount? line) (mbDate? line) line)
    (fun _ _ _ hd2 => applyStd_dates_mono _ _ _ _ hd2) st l k hd

theorem smStep_countEq {st : GroupedData × ℚ} (l : String) (h : CountEq st.1) :
    CountEq (smStep st l).1 :=
  mkStepTot_countEq "SM" smRef? smAmount? (fun line => applyWithRefs (smRef13 line) (smAmount? line) (smDate? line) line)
    (fun _ _ => applyWithRefs_count _ _ _ _ _) (fun _ _ => applyWithRefs_raw _ _ _ _ _) l h

theorem smStep_rawsFrom {Q : String → Prop} {st : GroupedData × ℚ} (l : String)
    (h : RawsFrom Q st.1) (hl : pyStrip l ≠ "" → Q l) : RawsFrom Q (smStep st l).1 :=
  mkStepTot_rawsFrom "SM" smRef? smAmount? (fun line => applyWithRefs (smRef13 line) (smAmount? line) (smDate? line) line)
    (fun _ _ => applyWithRefs_raw _ _ _ _ _) l h hl

theorem smStep_datesMono (st : GroupedData × ℚ) (l k : String) {d : String}
    (hd : d ∈ datesD (st.1 k)) : d ∈ datesD ((smStep st l).1 k) :=
  mkStepTot_datesMono "SM" smRef? smAmount? (fun line => applyWithRefs (smRef13 line) (smAmount? line) (smDate? line) line)
    (fun _ _ _ hd2 => applyWithRefs_dates_mono _ _ _ _ _ hd2) st l k hd

theorem bancnetStep_countEq {st : GroupedData × ℚ} (l : String) (h : CountEq st.1) :
    CountEq (bancnetStep st l).1 :=
  mkStepTot_countEq "BANCNET" bancnetRef? bancnetAmount? (fun line => applyStd (bancnetAmount? line) none line)
    (fun _ _ => applyStd_count _ _ _ _) (fun _ _ => applyStd_raw _ _ _ _) l h

theorem bancnetStep_rawsFrom {Q : String → Prop} {st : GroupedData × ℚ} (l : String)
    (h : RawsFrom Q st.1) (hl : pyStrip l ≠ "" → Q l) : RawsFrom Q (bancnetStep st l).1 :=
  mkStepTot_rawsFrom "BANCNET" bancnetRef? bancnetAmount? (fun line => applyStd (bancnetAmount? line) none line)
    (fun _ _ => applyStd_raw _ _ _ _) l h hl

theorem bancnetStep_datesMono (st : GroupedData × ℚ) (l k : String) {d : String}
    (hd : d ∈ datesD (st.1 k)) : d ∈ datesD ((bancnetStep st l).1 k) :=
  mkStepTot_datesMono "BANCNET" bancnetRef? bancnetAmount? (fun line => applyStd (bancnetAmount? line) none line)
    (fun _ _ _ hd2 => applyStd_dates_mono _ _ _ _ hd2) st l k hd

theorem robStep_countEq {st : GroupedData × ℚ} (l : String) (h : CountEq st.1) :
    CountEq (robStep st l).1 :=
  mkStepTot_countEq "ROB" robRef? robAmount? (fun line => applyWithRefs (robRefFull line) (robAmount? line) (robDate? line) line)
    (fun _ _ => applyWithRefs_count _ _ _ _ _) (fun _ _ => applyWithRefs_raw _ _ _ _ _) l h

theorem robStep_rawsFrom {Q : String → Prop} {st : GroupedData × ℚ} (l : String)
    (h : RawsFrom Q st.1) (hl : pyStrip l ≠ "" → Q l) : RawsFrom Q (robStep st l).1 :=
  mkStepTot_rawsFrom "ROB" robRef? robAmount? (fun line => applyWithRefs (robRefFull line) (robAmount? line) (robDate? line) line)
    (fun _ _ => applyWithRefs_raw _ _ _ _ _) l h hl

theorem robStep_datesMono (st : GroupedData × ℚ) (l k : String) {d : String}
    (hd : d ∈ datesD (st.1 k)) : d ∈ datesD ((robStep st l).1 k) :=
  mkStepTot_datesMono "ROB" robRef? robAmount? (fun line => applyWithRefs (robRefFull line) (robAmount? line) (robDate? line) line)
    (fun _ _ _ hd2 => applyWithRefs_dates_mono _ _ _ _ _ hd2) st l k hd

end ChannelLemmas

section DispatchLemmas

theorem processFileContent_cis_eq (content : String) :
    processFileContent content "CIS"
      = finalizeDates ((pyLines content).foldl cisStep emptyGD) := rfl

theorem processFileContent_mb_eq (content : String) :
    processFileContent content "METROBANK"
      = ((pyLines content).foldl mbStep (emptyGD, 0)).1 := rfl

theorem processFileContent_pnb_eq (content : String) :
    processFileContent content "PNB"
      = finalizeDates ((pyLines content).foldl pnbStep emptyGD) := rfl

theorem processFileContent_bdo_eq (content : String) :
    processFileContent content "BDO"
      = finalizeDates ((pyLines content).foldl bdoStep emptyGD) := rfl

theorem processFileContent_ecpay_eq (content : String) :
    processFileContent content "ECPAY"
      = finalizeDates ((pyLines content).foldl ecpayStep emptyGD) := rfl

theorem processFileContent_chinabank_eq (content : String) :
    processFileContent content "CHINABANK"
      = finalizeDates ((pyLines content).foldl chinabankStep emptyGD) := rfl

theorem processFileContent_cebuana_eq (content : String) :
    processFileContent content "CEBUANA"
      = finalizeDates ((pyLines content).foldl cebuanaStep emptyGD) := rfl

theorem processFileContent_ub_eq (content : String) :
    processFileContent content "UNIONBANK"
      = finalizeDates ((pyLines content).foldl ubStep { current := none, gd := emptyGD }).gd := rfl

theorem processFileContent_sm_eq (content : String) :
    processFileContent content "SM"
      = ((pyLines content).foldl smStep (emptyGD, 0)).1 := rfl

theorem processFileContent_bancnet_eq (content : String) :
    processFileContent content "BANCNET"
      = ((pyLines content).foldl bancnetStep (emptyGD, 0)).1 := rfl

theorem processFileContent_rob_eq (content : String) :
    processFileContent content "ROB"
      = ((pyLines content).foldl robStep (emptyGD, 0)).1 := rfl

theorem processFileContent_unknown_eq {mode : String} (h1 : mode ≠ "CIS") (h2 : mode ≠ "METROBANK") (h3 : mode ≠ "PNB") (h4 : mode ≠ "BDO") (h5 : mode ≠ "ECPAY") (h6 : mode ≠ "CHINABANK") (h7 : mode ≠ "CEBUANA") (h8 : mode ≠ "UNIONBANK") (h9 : mode ≠ "SM") (h10 : mode ≠ "BANCNET") (h11 : mode ≠ "ROB")
    (content : String) :
    processFileContent content mode = finalizeDates emptyGD := by
  unfold processFileContent
  rw [if_neg h1, if_neg h2, if_neg h3, if_neg h4, if_neg h5, if_neg h6, if_neg h7, if_neg h8, if_neg h9, if_neg h10, if_neg h11]

end DispatchLemmas

section ClaimC1

/-- Every channel other than UNIONBANK keeps `transaction_count` equal to the
length of `raw_contents` in every group. -/
theorem processFileContent_countEq {mode : String} (hmode : mode ≠ "UNIONBANK")
    (content : String) : CountEq (processFileContent content mode) := by
  by_cases h1 : mode = "CIS"
  · subst h1
    rw [processFileContent_cis_eq]
    exact finalizeDates_countEq (foldl_preserve CountEq cisStep
      (fun gd l h => cisStep_countEq l h) _ _ CountEq_empty)
  by_cases h2 : mode = "METROBANK"
  · subst h2
    rw [processFileContent_mb_eq]
    exact foldl_preserve (fun st : GroupedData × ℚ => CountEq st.1) mbStep
      (fun st l h => mbStep_countEq l h) _ _ CountEq_empty
  by_cases h3 : mode = "PNB"
  · subst h3
    rw [processFileContent_pnb_eq]
    exact finalizeDates_countEq (foldl_preserve CountEq pnbStep
      (fun gd l h => pnbStep_countEq l h) _ _ CountEq_empty)
  by_cases h4 : mode = "BDO"
  · subst h4
    rw [processFileContent_bdo_eq]
    exact finalizeDates_countEq (foldl_preserve CountEq bdoStep
      (fun gd l h => bdoStep_countEq l h) _ _ CountEq_empty)
  by_cases h5 : mode = "ECPAY"
  · subst h5
    rw [processFileContent_ecpay_eq]
    exact finalizeDates_countEq (foldl_preserve CountEq ecpayStep
      (fun gd l h => ecpayStep_countEq l h) _ _ CountEq_empty)
  by_cases h6 : mode = "CHINABANK"
  · subst h6
    rw [processFileContent_chinabank_eq]
    exact finalizeDates_countEq (foldl_preserve CountEq chinabankStep
      (fun gd l h => chinabankStep_countEq l h) _ _ CountEq_empty)
  by_cases h7 : mode = "CEBUANA"
  · subst h7
    rw [processFileContent_cebuana_eq]
    exact finalizeDates_countEq (foldl_preserve CountEq cebuanaStep
      (fun gd l h => cebuanaStep_countEq l h) _ _ CountEq_empty)
  by_cases h8 : mode = "SM"
  · subst h8
    rw [processFileContent_sm_eq]
    exact foldl_preserve (fun st : GroupedData × ℚ => CountEq st.1) smStep
      (fun st l h => smStep_countEq l h) _ _ CountEq_empty
  by_cases h9 : mode = "BANCNET"
  · subst h9
    rw [processFileContent_bancnet_eq]
    exact foldl_preserve (fun st : GroupedData × ℚ => CountEq st.1) bancnetStep
      (fun st l h => bancnetStep_countEq l h) _ _ CountEq_empty
  by_cases h10 : mode = "ROB"
  · subst h10
    rw [processFileContent_rob_eq]
    exact foldl_preserve (fun st : GroupedData × ℚ => CountEq st.1) robStep
      (fun st l h => robStep_countEq l h) _ _ CountEq_empty
  rw [processFileContent_unknown_eq h1 h2 h3 h4 h5 h6 h7 hmode h8 h9 h10]
  exact finalizeDates_countEq CountEq_empty

/-- Claim C1 is false as stated: a single short UNIONBANK line accumulates
under `NOREF` with one buffered raw line and a transaction count of zero. -/
theorem C1_counterexample :
    (processFileContent "X" "UNIONBANK" "NOREF").map
      (fun g => (g.transaction_count, g.raw_contents.length)) = some (0, 1) ∧
    (0 : Nat) ≠ 1 :=
  ⟨by decide, by decide⟩

/-- Claim C1 (amended): for every channel other than UNIONBANK, every group
satisfies `transaction_count = raw_contents.length` after parsing; for
UNIONBANK only `transaction_count ≤ raw_contents.length` holds, because
continuation and orphan lines are buffered without counting. -/
theorem C1_amended :
    (∀ mode content k g, mode ≠ "UNIONBANK" →
      processFileContent content mode k = some g →
      g.transaction_count = g.raw_contents.length) ∧
    (∀ content k g, processFileContent content "UNIONBANK" k = some g →
      g.transaction_count ≤ g.raw_contents.length) := by
  constructor
  · intro mode content k g hmode hres
    exact processFileContent_countEq hmode content k g hres
  · intro content k g hres
    rw [processFileContent_ub_eq] at hres
    refine finalizeDates_countLe ?_ k g hres
    exact foldl_preserve (fun st : UBState => CountLe st.gd) ubStep
      (fun st l h => ubStep_countLe l h) _ _ CountLe_empty

/-- Witness for C1 on a concrete CIS run. -/
theorem C1_witness :
    (Group.mk ["d^1234^x"] 1 0 "CIS" ["d"] []).transaction_count
      = (Group.mk ["d^1234^x"] 1 0 "CIS" ["d"] []).raw_contents.length :=
  C1_amended.1 "CIS" "d^1234^x" "1234" (Group.mk ["d^1234^x"] 1 0 "CIS" ["d"] [])
    (by decide) (by decide)

end ClaimC1

section ClaimC9

/-- Every buffered raw line is one of the split lines of the input and has
non-whitespace content, for every payment mode. -/
theorem processFileContent_rawsFrom (mode content : String) :
    RawsFrom (fun l => l ∈ pyLines content ∧ pyStrip l ≠ "")
      (processFileContent content mode) := by
  by_cases hmode : mode = "UNIONBANK"
  · subst hmode
    rw [processFileContent_ub_eq]
    exact finalizeDates_rawsFrom (foldl_preserve_of_mem
      (fun st : UBState => RawsFrom (fun l => l ∈ pyLines content ∧ pyStrip l ≠ "") st.gd)
      ubStep (pyLines content)
      (fun st l hmem h => ubStep_rawsFrom l h (fun hb => ⟨hmem, hb⟩))
      _ (fun l hl => hl) _ (RawsFrom_empty _))
  by_cases h1 : mode = "CIS"
  · subst h1
    rw [processFileContent_cis_eq]
    exact finalizeDates_rawsFrom (foldl_preserve_of_mem
      (RawsFrom (fun l => l ∈ pyLines content ∧ pyStrip l ≠ "")) cisStep (pyLines content)
      (fun gd l hmem h => cisStep_rawsFrom l h (fun hb => ⟨hmem, hb⟩))
      _ (fun l hl => hl) _ (RawsFrom_empty _))
  by_cases h2 : mode = "METROBANK"
  · subst h2
    rw [processFileContent_mb_eq]
    exact foldl_preserve_of_mem (fun st : GroupedData × ℚ =>
        RawsFrom (fun l => l ∈ pyLines content ∧ pyStrip l ≠ "") st.1) mbStep
      (pyLines content)
      (fun st l hmem h => mbStep_rawsFrom l h (fun hb => ⟨hmem, hb⟩))
      _ (fun l hl => hl) _ (RawsFrom_empty _)
  by_cases h3 : mode = "PNB"
  · subst h3
    rw [processFileContent_pnb_eq]
    exact finalizeDates_rawsFrom (foldl_preserve_of_mem
      (RawsFrom (fun l => l ∈ pyLines content ∧ pyStrip l ≠ "")) pnbStep (pyLines content)
      (fun gd l hmem h => pnbStep_rawsFrom l h (fun hb => ⟨hmem, hb⟩))
      _ (fun l hl => hl) _ (RawsFrom_empty _))
  by_cases h4 : mode = "BDO"
  · subst h4
    rw [processFileContent_bdo_eq]
    exact finalizeDates_rawsFrom (foldl_preserve_of_mem
      (RawsFrom (fun l => l ∈ pyLines content ∧ pyStrip l ≠ "")) bdoStep (pyLines content)
      (fun gd l hmem h => bdoStep_rawsFrom l h (fun hb => ⟨hmem, hb⟩))
      _ (fun l hl => hl) _ (RawsFrom_empty _))
  by_cases h5 : mode = "ECPAY"
  · subst h5
    rw [processFileContent_ecpay_eq]
    exact finalizeDates_rawsFrom (foldl_preserve_of_mem
      (RawsFrom (fun l => l ∈ pyLines content ∧ pyStrip l ≠ "")) ecpayStep (pyLines content)
      (fun gd l hmem h => ecpayStep_rawsFrom l h (fun hb => ⟨hmem, hb⟩))
      _ (fun l hl => hl) _ (RawsFrom_empty _))
  by_cases h6 : mode = "CHINABANK"
  · subst h6
    rw [processFileContent_chinabank_eq]
    exact finalizeDates_rawsFrom (foldl_preserve_of_mem
      (RawsFrom (fun l => l ∈ pyLines content ∧ pyStrip l ≠ "")) chinabankStep (pyLines content)
      (fun gd l hmem h => chinabankStep_rawsFrom l h (fun hb => ⟨hmem, hb⟩))
      _ (fun l hl => hl) _ (RawsFrom_empty _))
  by_cases h7 : mode = "CEBUANA"
  · subst h7
    rw [processFileContent_cebuana_eq]
    exact finalizeDates_rawsFrom (foldl_preserve_of_mem
      (RawsFrom (fun l => l ∈ pyLines content ∧ pyStrip l ≠ "")) cebuanaStep (pyLines content)
      (fun gd l hmem h => cebuanaStep_rawsFrom l h (fun hb => ⟨hmem, hb⟩))
      _ (fun l hl => hl) _ (RawsFrom_empty _))
  by_cases h8 : mode = "SM"
  · subst h8
    rw [processFileContent_sm_eq]
    exact foldl_preserve_of_mem (fun st : GroupedData × ℚ =>
        RawsFrom (fun l => l ∈ pyLines content ∧ pyStrip l ≠ "") st.1) smStep
      (pyLines content)
      (fun st l hmem h => smStep_rawsFrom l h (fun hb => ⟨hmem, hb⟩))
      _ (fun l hl => hl) _ (RawsFrom_empty _)
  by_cases h9 : mode = "BANCNET"
  · subst h9
    rw [processFileContent_bancnet_eq]
    exact foldl_preserve_of_mem (fun st : GroupedData × ℚ =>
        RawsFrom (fun l => l ∈ pyLines content ∧ pyStrip l ≠ "") st.1) bancnetStep
      (pyLines content)
      (fun st l hmem h => bancnetStep_rawsFrom l h (fun hb => ⟨hmem, hb⟩))
      _ (fun l hl => hl) _ (RawsFrom_empty _)
  by_cases h10 : mode = "ROB"
  · subst h10
    rw [processFileContent_rob_eq]
    exact foldl_preserve_of_mem (fun st : GroupedData × ℚ =>
        RawsFrom (fun l => l ∈ pyLines content ∧ pyStrip l ≠ "") st.1) robStep
      (pyLines content)
      (fun st l hmem h => robStep_rawsFrom l h (fun hb => ⟨hmem, hb⟩))
      _ (fun l hl => hl) _ (RawsFrom_empty _)
  rw [processFileContent_unknown_eq h1 h2 h3 h4 h5 h6 h7 hmode h8 h9 h10]
  exact finalizeDates_rawsFrom (RawsFrom_empty _)

end ClaimC9

section ClaimC3

/-- Claim C3 is false as stated: two identical short orphan lines leave the
`NOREF` group with a single buffered copy -- the duplicate's raw text is not
appended. -/
theorem C3_counterexample :
    (processFileContent "X\nX" "UNIONBANK" "NOREF").map
      (fun g => (g.raw_contents, g.transaction_count)) = some (["X"], 0) ∧
    (["X"] : List String).length ≠ 2 :=
  ⟨by decide, by decide⟩

/-- Claim C3 (amended): during UNIONBANK parsing, a line with non-whitespace
content shorter than 200 characters never creates a record: the current
reference is unchanged, every group's count and total are unchanged, and the
line's raw text is appended to the current group (`NOREF` when no reference is
established) unless a string-equal line is already buffered there, in which
case the grouped data is left untouched. -/
theorem C3_amended (st : UBState) (line : String) (hb : pyStrip line ≠ "")
    (hlen : line.length < 200) :
    (ubStep st line).current = st.current ∧
    (∀ k, countD ((ubStep st line).gd k) = countD (st.gd k)) ∧
    (∀ k, totalD ((ubStep st line).gd k) = totalD (st.gd k)) ∧
    (line ∉ rawsD (st.gd (ubTarget st line)) →
      rawsD ((ubStep st line).gd (ubTarget st line))
        = rawsD (st.gd (ubTarget st line)) ++ [line]) ∧
    (line ∈ rawsD (st.gd (ubTarget st line)) → (ubStep st line).gd = st.gd) ∧
    (st.current = none → ubTarget st line = "NOREF") := by
  have hlen2 : ¬ 200 ≤ line.length := by omega
  obtain ⟨h1, h2, h3, h4, h5, h6⟩ := ubStep_short hb hlen2
  refine ⟨h1, h2, h3, h5, fun hdup => ubStep_dup_noop hb hdup, fun hc => ?_⟩
  unfold ubTarget
  rw [if_neg hlen2, hc]

/-- Witness for C3 at a concrete short orphan line. -/
theorem C3_witness :
    (ubStep { current := none, gd := emptyGD } "X").current
        = ({ current := none, gd := emptyGD } : UBState).current ∧
    (∀ k, countD ((ubStep { current := none, gd := emptyGD } "X").gd k)
        = countD (({ current := none, gd := emptyGD } : UBState).gd k)) ∧
    (∀ k, totalD ((ubStep { current := none, gd := emptyGD } "X").gd k)
        = totalD (({ current := none, gd := emptyGD } : UBState).gd k)) ∧
    ("X" ∉ rawsD (({ current := none, gd := emptyGD } : UBState).gd
        (ubTarget { current := none, gd := emptyGD } "X")) →
      rawsD ((ubStep { current := none, gd := emptyGD } "X").gd
          (ubTarget { current := none, gd := emptyGD } "X"))
        = rawsD (({ current := none, gd := emptyGD } : UBState).gd
            (ubTarget { current := none, gd := emptyGD } "X")) ++ ["X"]) ∧
    ("X" ∈ rawsD (({ current := none, gd := emptyGD } : UBState).gd
        (ubTarget { current := none, gd := emptyGD } "X")) →
      (ubStep { current := none, gd := emptyGD } "X").gd
        = ({ current := none, gd := emptyGD } : UBState).gd) ∧
    (({ current := none, gd := emptyGD } : UBState).current = none →
      ubTarget { current := none, gd := emptyGD } "X" = "NOREF") :=
  C3_amended { current := none, gd := emptyGD } "X" (by decide) (by decide)

end ClaimC3

section ClaimC10

/-- Claim C10: UNIONBANK deduplicates raw lines. After any UNIONBANK run every
group's raw-line buffer is duplicate-free; a non-blank line already buffered
in its target group leaves the grouped data entirely unchanged; and the other
channels do preserve duplicate lines (shown for a CIS run with a repeated
line). -/
theorem C10_theorem :
    (∀ content k, (rawsD (processFileContent content "UNIONBANK" k)).Nodup) ∧
    (∀ st line, pyStrip line ≠ "" → line ∈ rawsD (st.gd (ubTarget st line)) →
      (ubStep st line).gd = st.gd) ∧
    rawsD (processFileContent "a^1234^x\na^1234^x" "CIS" "1234")
      = ["a^1234^x", "a^1234^x"] := by
  refine ⟨?_, fun st line hb hdup => ubStep_dup_noop hb hdup, by decide⟩
  intro content k
  rw [processFileContent_ub_eq, finalizeDates_raws]
  exact foldl_preserve (fun st : UBState => RawsNodup st.gd) ubStep
    (fun st l h => ubStep_nodup l h) _ _ RawsNodup_empty k

/-- Witness for C10's duplicate-drop at a concrete state. -/
theorem C10_witness :
    (ubStep (UBState.mk (some "1234")
        (gdUpdate emptyGD "1234" (Group.mk ["L"] 1 0 "UNIONBANK" [] []))) "L").gd
      = (UBState.mk (some "1234")
          (gdUpdate emptyGD "1234" (Group.mk ["L"] 1 0 "UNIONBANK" [] []))).gd :=
  C10_theorem.2.1
    (UBState.mk (some "1234") (gdUpdate emptyGD "1234" (Group.mk ["L"] 1 0 "UNIONBANK" [] [])))
    "L" (by decide) (by decide)

end ClaimC10

section ClaimC9Claims

/-- Claim C9 is false as stated: the parser performs no per-line carriage
return trimming, so a buffered raw line can end in one. -/
theorem C9_counterexample :
    (processFileContent "a^1234^x\r\nb" "CIS" "1234").map Group.raw_contents
      = some ["a^1234^x\r"] ∧
    ("a^1234^x\r").data.getLast? = some '\r' :=
  ⟨by decide, by decide⟩

/-- Claim C9 (amended): the parser strips leading and trailing whitespace of
the whole content, splits on the newline character, and skips lines whose
stripped text is empty, so every buffered raw line is one of those split
lines and has non-whitespace content. A trailing carriage return is not
trimmed from a line (see the counterexample); carriage-return-free buffered
lines rely on the upstream text-mode decoding. -/
theorem C9_amended (mode content k l : String)
    (hl : l ∈ rawsD (processFileContent content mode k)) :
    l ∈ pyLines content ∧ pyStrip l ≠ "" :=
  processFileContent_rawsFrom mode content k l hl

/-- Witness for C9 at a concrete CIS run. -/
theorem C9_witness : "a^1234^x" ∈ pyLines "a^1234^x" ∧ pyStrip "a^1234^x" ≠ "" :=
  C9_amended "CIS" "a^1234^x" "1234" "a^1234^x" (by decide)

end ClaimC9Claims

section ClaimC6

/-- Claim C6: for a CEBUANA line whose reference rule succeeds, the amount
added to the group total is comma-split field 6 parsed as a decimal (the
`replace(',', '')` is applied before parsing), while the separate
`extract_amount` code path reads field 5 for CEBUANA. -/
theorem C6_theorem :
    (∀ gd line k a, pyStrip line ≠ "" → cebuanaRef? line = some k →
      cebuanaAmount? line = some a →
      totalD (cebuanaStep gd line k) = totalD (gd k) + a ∧
      pyFloat? (removeCommas ((cebuanaFields line).getD 6 "")) = some a) ∧
    (∀ fields a, 5 < fields.length →
      pyFloat? (removeCommas (fields.getD 5 "")) = some a →
      extract_amount fields "CEBUANA" = a) := by
  constructor
  · intro gd line k a hb hr ha
    constructor
    · rw [show cebuanaStep gd line k
          = some (applyCebuana (cebuanaAmount? line) (cebuanaDate? line) line
              (getOrInit gd k "CEBUANA")) from
        mkStep_at "CEBUANA" cebuanaRef?
          (fun line => applyCebuana (cebuanaAmount? line) (cebuanaDate? line) line)
          gd line k hb hr]
      rw [ha]
      show (applyCebuana (some a) (cebuanaDate? line) line
          (getOrInit gd k "CEBUANA")).total_amount = totalD (gd k) + a
      rw [applyCebuana_total_some, getOrInit_total]
    · unfold cebuanaAmount? at ha
      by_cases hlen : 6 < (cebuanaFields line).length
      · rwa [if_pos hlen] at ha
      · rw [if_neg hlen] at ha
        exact absurd ha (by simp)
  · intro fields a hlen hpf
    unfold extract_amount
    rw [if_neg (by decide), if_neg (by decide), if_pos (by decide), if_pos hlen, hpf]

/-- Witness for C6 on a concrete CEBUANA line whose fields 5 and 6 differ. -/
theorem C6_witness :
    (totalD (cebuanaStep emptyGD "a,b,D,c,1234,55.5,77.25" "1234")
        = totalD (emptyGD "1234") + (cebuanaAmount? "a,b,D,c,1234,55.5,77.25").getD 0 ∧
      pyFloat? (removeCommas ((cebuanaFields "a,b,D,c,1234,55.5,77.25").getD 6 ""))
        = some ((cebuanaAmount? "a,b,D,c,1234,55.5,77.25").getD 0)) ∧
    extract_amount ["a", "b", "D", "c", "1234", "55.5", "77.25"] "CEBUANA"
      = (pyFloat? (removeCommas (["a", "b", "D", "c", "1234", "55.5", "77.25"].getD 5 ""))).getD 0 :=
  ⟨C6_theorem.1 emptyGD "a,b,D,c,1234,55.5,77.25" "1234"
      ((cebuanaAmount? "a,b,D,c,1234,55.5,77.25").getD 0) (by decide) (by decide) rfl,
    C6_theorem.2 ["a", "b", "D", "c", "1234", "55.5", "77.25"]
      ((pyFloat? (removeCommas (["a", "b", "D", "c", "1234", "55.5", "77.25"].getD 5 ""))).getD 0)
      (by decide) rfl⟩

end ClaimC6

section ClaimC2

theorem mkStep_applyStd_amount_fail (mode : String) (ref? : String → Option String)
    (amount? : String → Option ℚ) (date? : String → Option String)
    (gd : GroupedData) (line k : String) (hb : pyStrip line ≠ "")
    (hr : ref? line = some k) (ha : amount? line = none) :
    countD (mkStep mode ref? (fun l => applyStd (amount? l) (date? l) l) gd line k)
        = countD (gd k) + 1 ∧
    rawsD (mkStep mode ref? (fun l => applyStd (amount? l) (date? l) l) gd line k)
        = rawsD (gd k) ++ [line] ∧
    totalD (mkStep mode ref? (fun l => applyStd (amount? l) (date? l) l) gd line k)
        = totalD (gd k) := by
  rw [mkStep_at _ _ _ _ _ _ hb hr]
  refine ⟨?_, ?_, ?_⟩
  · show (applyStd (amount? line) (date? line) line (getOrInit gd k mode)).transaction_count
        = countD (gd k) + 1
    rw [applyStd_count, getOrInit_count]
  · show (applyStd (amount? line) (date? line) line (getOrInit gd k mode)).raw_contents
        = rawsD (gd k) ++ [line]
    rw [applyStd_raw, getOrInit_raw]
  · show (applyStd (amount? line) (date? line) line (getOrInit gd k mode)).total_amount
        = totalD (gd k)
    rw [ha, applyStd_total_none, getOrInit_total]

theorem mkStep_applyCebuana_amount_fail (mode : String) (ref? : String → Option String)
    (amount? : String → Option ℚ) (date? : String → Option String)
    (gd : GroupedData) (line k : String) (hb : pyStrip line ≠ "")
    (hr : ref? line = some k) (ha : amount? line = none) :
    countD (mkStep mode ref? (fun l => applyCebuana (amount? l) (date? l) l) gd line k)
        = countD (gd k) + 1 ∧
    rawsD (mkStep mode ref? (fun l => applyCebuana (amount? l) (date? l) l) gd line k)
        = rawsD (gd k) ++ [line] ∧
    totalD (mkStep mode ref? (fun l => applyCebuana (amount? l) (date? l) l) gd line k)
        = totalD (gd k) := by
  rw [mkStep_at _ _ _ _ _ _ hb hr]
  refine ⟨?_, ?_, ?_⟩
  · show (applyCebuana (amount? line) (date? line) line (getOrInit gd k mode)).transaction_count
        = countD (gd k) + 1
    rw [applyCebuana_count, getOrInit_count]
  · show (applyCebuana (amount? line) (date? line) line (getOrInit gd k mode)).raw_contents
        = rawsD (gd k) ++ [line]
    rw [applyCebuana_raw, getOrInit_raw]
  · show (applyCebuana (amount? line) (date? line) line (getOrInit gd k mode)).total_amount
        = totalD (gd k)
    rw [ha, applyCebuana_total_none, getOrInit_total]

theorem mkStepTot_applyStd_amount_fail (mode : String) (ref? : String → Option String)
    (tot? : String → Option ℚ) (amount? : String → Option ℚ) (date? : String → Option String)
    (st : GroupedData × ℚ) (line k : String) (hb : pyStrip line ≠ "")
    (hr : ref? line = some k) (ha : amount? line = none) :
    countD ((mkStepTot mode ref? tot? (fun l => applyStd (amount? l) (date? l) l) st line).1 k)
        = countD (st.1 k) + 1 ∧
    rawsD ((mkStepTot mode ref? tot? (fun l => applyStd (amount? l) (date? l) l) st line).1 k)
        = rawsD (st.1 k) ++ [line] ∧
    totalD ((mkStepTot mode ref? tot? (fun l => applyStd (amount? l) (date? l) l) st line).1 k)
        = totalD (st.1 k) := by
  rw [mkStepTot_at _ _ _ _ _ _ _ hb hr]
  refine ⟨?_, ?_, ?_⟩
  · show (applyStd (amount? line) (date? line) line (getOrInit st.1 k mode)).transaction_count
        = countD (st.1 k) + 1
    rw [applyStd_count, getOrInit_count]
  · show (applyStd (amount? line) (date? line) line (getOrInit st.1 k mode)).raw_contents
        = rawsD (st.1 k) ++ [line]
    rw [applyStd_raw, getOrInit_raw]
  · show (applyStd (amount? line) (date? line) line (getOrInit st.1 k mode)).total_amount
        = totalD (st.1 k)
    rw [ha, applyStd_total_none, getOrInit_total]

theorem mkStepTot_applyWithRefs_amount_fail (mode : String) (ref? : String → Option String)
    (tot? : String → Option ℚ) (rf : String → String) (amount? : String → Option ℚ)
    (date? : String → Option String) (st : GroupedData × ℚ) (line k : String)
    (hb : pyStrip line ≠ "") (hr : ref? line = some k) (ha : amount? line = none) :
    countD ((mkStepTot mode ref? tot?
        (fun l => applyWithRefs (rf l) (amount? l) (date? l) l) st line).1 k)
        = countD (st.1 k) + 1 ∧
    rawsD ((mkStepTot mode ref? tot?
        (fun l => applyWithRefs (rf l) (amount? l) (date? l) l) st line).1 k)
        = rawsD (st.1 k) ++ [line] ∧
    totalD ((mkStepTot mode ref? tot?
        (fun l => applyWithRefs (rf l) (amount? l) (date? l) l) st line).1 k)
        = totalD (st.1 k) := by
  rw [mkStepTot_at _ _ _ _ _ _ _ hb hr]
  refine ⟨?_, ?_, ?_⟩
  · show (applyWithRefs (rf line) (amount? line) (date? line) line
        (getOrInit st.1 k mode)).transaction_count = countD (st.1 k) + 1
    rw [applyWithRefs_count, getOrInit_count]
  · show (applyWithRefs (rf line) (amount? line) (date? line) line
        (getOrInit st.1 k mode)).raw_contents = rawsD (st.1 k) ++ [line]
    rw [applyWithRefs_raw, getOrInit_raw]
  · show (applyWithRefs (rf line) (amount? line) (date? line) line
        (getOrInit st.1 k mode)).total_amount = totalD (st.1 k)
    rw [ha, applyWithRefs_total_none, getOrInit_total]

/-- A 200-character UNIONBANK line carrying a 14-digit reference but no
amount pattern. -/
def cL : String :=
  ⟨List.replicate 126 'X' ++ List.replicate 12 ' ' ++ "12345678901234".data ++
    List.replicate 4 ' ' ++ List.replicate 44 'Y'⟩

/-- Claim C2 is false as stated: a UNIONBANK line whose reference rule
succeeds and whose amount is absent, repeated verbatim, leaves its group
untouched on the second occurrence -- the count stays 1 instead of reaching
2. -/
theorem C2_counterexample :
    processFileContent (cL ++ "\n" ++ cL) "UNIONBANK" "1234"
      = some (Group.mk [cL] 1 0 "UNIONBANK" [] []) ∧
    (1 : Nat) ≠ 2 :=
  ⟨by decide, by decide⟩

/-- Claim C2 (amended): for every channel, a line whose reference rule
succeeds but whose amount is absent or not numeric still updates its group --
count incremented, raw line appended, total unchanged -- except during
UNIONBANK parsing when the identical line is already buffered in the target
group, in which case the grouped data is left unchanged. -/
theorem C2_amended :
    (∀ gd line k, pyStrip line ≠ "" → cisRef? line = some k → cisAmount? line = none →
      countD (cisStep gd line k) = countD (gd k) + 1 ∧
      rawsD (cisStep gd line k) = rawsD (gd k) ++ [line] ∧
      totalD (cisStep gd line k) = totalD (gd k)) ∧
    (∀ gd line k, pyStrip line ≠ "" → pnbRef? line = some k → pnbAmount? line = none →
      countD (pnbStep gd line k) = countD (gd k) + 1 ∧
      rawsD (pnbStep gd line k) = rawsD (gd k) ++ [line] ∧
      totalD (pnbStep gd line k) = totalD (gd k)) ∧
    (∀ gd line k, pyStrip line ≠ "" → bdoRef? line = some k → bdoAmount? line = none →
      countD (bdoStep gd line k) = countD (gd k) + 1 ∧
      rawsD (bdoStep gd line k) = rawsD (gd k) ++ [line] ∧
      totalD (bdoStep gd line k) = totalD (gd k)) ∧
    (∀ gd line k, pyStrip line ≠ "" → ecpayRef? line = some k → ecpayAmount? line = none →
      countD (ecpayStep gd line k) = countD (gd k) + 1 ∧
      rawsD (ecpayStep gd line k) = rawsD (gd k) ++ [line] ∧
      totalD (ecpayStep gd line k) = totalD (gd k)) ∧
    (∀ gd line k, pyStrip line ≠ "" → chinabankRef? line = some k →
      chinabankAmount? line = none →
      countD (chinabankStep gd line k) = countD (gd k) + 1 ∧
      rawsD (chinabankStep gd line k) = rawsD (gd k) ++ [line] ∧
      totalD (chinabankStep gd line k) = totalD (gd k)) ∧
    (∀ gd line k, pyStrip line ≠ "" → cebuanaRef? line = some k →
      cebuanaAmount? line = none →
      countD (cebuanaStep gd line k) = countD (gd k) + 1 ∧
      rawsD (cebuanaStep gd line k) = rawsD (gd k) ++ [line] ∧
      totalD (cebuanaStep gd line k) = totalD (gd k)) ∧
    (∀ st line k, pyStrip line ≠ "" → mbRef? line = some k → mbAmount? line = none →
      countD ((mbStep st line).1 k) = countD (st.1 k) + 1 ∧
      rawsD ((mbStep st line).1 k) = rawsD (st.1 k) ++ [line] ∧
      totalD ((mbStep st line).1 k) = totalD (st.1 k)) ∧
    (∀ st line k, pyStrip line ≠ "" → smRef? line = some k → smAmount? line = none →
      countD ((smStep st line).1 k) = countD (st.1 k) + 1 ∧
      rawsD ((smStep st line).1 k) = rawsD (st.1 k) ++ [line] ∧
      totalD ((smStep st line).1 k) = totalD (st.1 k)) ∧
    (∀ st line k, pyStrip line ≠ "" → bancnetRef? line = some k →
      bancnetAmount? line = none →
      countD ((bancnetStep st line).1 k) = countD (st.1 k) + 1 ∧
      rawsD ((bancnetStep st line).1 k) = rawsD (st.1 k) ++ [line] ∧
      totalD ((bancnetStep st line).1 k) = totalD (st.1 k)) ∧
    (∀ st line k, pyStrip line ≠ "" → robRef? line = some k → robAmount? line = none →
      countD ((robStep st line).1 k) = countD (st.1 k) + 1 ∧
      rawsD ((robStep st line).1 k) = rawsD (st.1 k) ++ [line] ∧
      totalD ((robStep st line).1 k) = totalD (st.1 k)) ∧
    (∀ st line, pyStrip line ≠ "" → 200 ≤ line.length → ubAmount? line = none →
      (line ∉ rawsD (st.gd (ubComputeRef line)) →
        countD ((ubStep st line).gd (ubComputeRef line))
            = countD (st.gd (ubComputeRef line)) + 1 ∧
        rawsD ((ubStep st line).gd (ubComputeRef line))
            = rawsD (st.gd (ubComputeRef line)) ++ [line] ∧
        totalD ((ubStep st line).gd (ubComputeRef line))
            = totalD (st.gd (ubComputeRef line))) ∧
      (line ∈ rawsD (st.gd (ubComputeRef line)) → (ubStep st line).gd = st.gd)) := by
  refine ⟨?_, ?_, ?_, ?_, ?_, ?_, ?_, ?_, ?_, ?_, ?_⟩
  · exact fun gd line k hb hr ha =>
      mkStep_applyStd_amount_fail "CIS" cisRef? cisAmount? cisDate? gd line k hb hr ha
  · exact fun gd line k hb hr ha =>
      mkStep_applyStd_amount_fail "PNB" pnbRef? pnbAmount? pnbDate? gd line k hb hr ha
  · exact fun gd line k hb hr ha =>
      mkStep_applyStd_amount_fail "BDO" bdoRef? bdoAmount? bdoDate? gd line k hb hr ha
  · exact fun gd line k hb hr ha =>
      mkStep_applyStd_amount_fail "ECPAY" ecpayRef? ecpayAmount? ecpayDate? gd line k hb hr ha
  · exact fun gd line k hb hr ha =>
      mkStep_applyStd_amount_fail "CHINABANK" chinabankRef? chinabankAmount? chinabankDate?
        gd line k hb hr ha
  · exact fun gd line k hb hr ha =>
      mkStep_applyCebuana_amount_fail "CEBUANA" cebuanaRef? cebuanaAmount? cebuanaDate?
        gd line k hb hr ha
  · exact fun st line k hb hr ha =>
      mkStepTot_applyStd_amount_fail "METROBANK" mbRef? mbAmount? mbAmount? mbDate?
        st line k hb hr ha
  · exact fun st line k hb hr ha =>
      mkStepTot_applyWithRefs_amount_fail "SM" smRef? smAmount? smRef13 smAmount? smDate?
        st line k hb hr ha
  · exact fun st line k hb hr ha =>
      mkStepTot_applyStd_amount_fail "BANCNET" bancnetRef? bancnetAmount? bancnetAmount?
        (fun _ => none) st line k hb hr ha
  · exact fun st line k hb hr ha =>
      mkStepTot_applyWithRefs_amount_fail "ROB" robRef? robAmount? robRefFull robAmount? robDate?
        st line k hb hr ha
  · intro st line hb hlen ha
    constructor
    · intro hdup
      obtain ⟨-, hat, -⟩ := ubStep_long hb hlen hdup
      rw [hat]
      refine ⟨?_, ?_, ?_⟩
      · show (ubApplyLong line
            (getOrInit st.gd (ubComputeRef line) "UNIONBANK")).transaction_count
            = countD (st.gd (ubComputeRef line)) + 1
        rw [ubApplyLong_count, getOrInit_count]
      · show (ubApplyLong line (getOrInit st.gd (ubComputeRef line) "UNIONBANK")).raw_contents
            = rawsD (st.gd (ubComputeRef line)) ++ [line]
        rw [ubApplyLong_raw, getOrInit_raw]
      · show (ubApplyLong line (getOrInit st.gd (ubComputeRef line) "UNIONBANK")).total_amount
            = totalD (st.gd (ubComputeRef line))
        rw [ubApplyLong_total_none ha, getOrInit_total]
    · intro hdup
      refine ubStep_dup_noop hb ?_
      unfold ubTarget
      rw [if_pos hlen]
      exact hdup

/-- Witness for C2 on a concrete CIS line with a non-numeric amount field. -/
theorem C2_witness :
    countD (cisStep emptyGD "a^1234^x" "1234") = countD (emptyGD "1234") + 1 ∧
    rawsD (cisStep emptyGD "a^1234^x" "1234") = rawsD (emptyGD "1234") ++ ["a^1234^x"] ∧
    totalD (cisStep emptyGD "a^1234^x" "1234") = totalD (emptyGD "1234") :=
  C2_amended.1 emptyGD "a^1234^x" "1234" (by decide) (by decide) rfl

end ClaimC2

section ClaimC8

/-- The date-accumulation contract of a standard channel step: old dates are
preserved and a parsed date is added to its group's date set. -/
def StepDatesAccum (step : GroupedData → String → GroupedData)
    (ref? : String → Option String) (date? : String → Option String) : Prop :=
  (∀ gd line k d, d ∈ datesD (gd k) → d ∈ datesD (step gd line k)) ∧
  (∀ gd line k dt, pyStrip line ≠ "" → ref? line = some k → date? line = some dt →
    dt ∈ datesD (step gd line k))

/-- As `StepDatesAccum`, for the steps that also carry a file-wide total. -/
def StepDatesAccumTot (step : GroupedData × ℚ → String → GroupedData × ℚ)
    (ref? : String → Option String) (date? : String → Option String) : Prop :=
  (∀ st line k d, d ∈ datesD (st.1 k) → d ∈ datesD ((step st line).1 k)) ∧
  (∀ st line k dt, pyStrip line ≠ "" → ref? line = some k → date? line = some dt →
    dt ∈ datesD ((step st line).1 k))

theorem mkStep_applyStd_adds_date (mode : String) (ref? : String → Option String)
    (amount? : String → Option ℚ) (date? : String → Option String)
    (gd : GroupedData) (line k dt : String) (hb : pyStrip line ≠ "")
    (hr : ref? line = some k) (hd : date? line = some dt) :
    dt ∈ datesD (mkStep mode ref? (fun l => applyStd (amount? l) (date? l) l) gd line k) := by
  rw [mkStep_at _ _ _ _ _ _ hb hr]
  show dt ∈ (applyStd (amount? line) (date? line) line (getOrInit gd k mode)).dates
  rw [hd]
  exact applyStd_dates_some _ _ _ _

theorem mkStepTot_applyStd_adds_date (mode : String) (ref? : String → Option String)
    (tot? : String → Option ℚ) (amount? : String → Option ℚ) (date? : String → Option String)
    (st : GroupedData × ℚ) (line k dt : String) (hb : pyStrip line ≠ "")
    (hr : ref? line = some k) (hd : date? line = some dt) :
    dt ∈ datesD ((mkStepTot mode ref? tot?
        (fun l => applyStd (amount? l) (date? l) l) st line).1 k) := by
  rw [mkStepTot_at _ _ _ _ _ _ _ hb hr]
  show dt ∈ (applyStd (amount? line) (date? line) line (getOrInit st.1 k mode)).dates
  rw [hd]
  exact applyStd_dates_some _ _ _ _

theorem mkStepTot_applyWithRefs_adds_date (mode : String) (ref? : String → Option String)
    (tot? : String → Option ℚ) (rf : String → String) (amount? : String → Option ℚ)
    (date? : String → Option String) (st : GroupedData × ℚ) (line k dt : String)
    (hb : pyStrip line ≠ "") (hr : ref? line = some k) (hd : date? line = some dt) :
    dt ∈ datesD ((mkStepTot mode ref? tot?
        (fun l => applyWithRefs (rf l) (amount? l) (date? l) l) st line).1 k) := by
  rw [mkStepTot_at _ _ _ _ _ _ _ hb hr]
  show dt ∈ (applyWithRefs (rf line) (amount? line) (date? line) line
      (getOrInit st.1 k mode)).dates
  rw [hd]
  exact applyWithRefs_dates_some _ _ _ _ _

theorem ubApplyLong_dates_some {line dt : String} (h : ubDate? line = some dt) (g : Group) :
    dt ∈ (ubApplyLong line g).dates := by
  unfold ubApplyLong
  rw [h]
  cases ubAmount? line <;> simp <;> exact mem_setAdd_self _ _

/-- Claim C8 is false as stated: a second CEBUANA record in the same group
replaces the group's date set instead of adding to it, so the first record's
date is lost. -/
theorem C8_counterexample :
    (processFileContent "a,b,D1,c,1234,e,x\na,b,D2,c,1234,e,x" "CEBUANA" "1234").map
      Group.dates = some ["D2"] ∧
    ("D1" : String) ∉ (["D2"] : List String) :=
  ⟨by decide, by decide⟩

/-- Claim C8 (amended): for every channel except CEBUANA, processing a record
adds its date string to its group's date set and never removes or replaces
previously added dates; the CEBUANA branch instead replaces the whole date set
with the singleton of the latest record's date. The final sort preserves
membership. -/
theorem C8_amended :
    StepDatesAccum cisStep cisRef? cisDate? ∧
    StepDatesAccum pnbStep pnbRef? pnbDate? ∧
    StepDatesAccum bdoStep bdoRef? bdoDate? ∧
    StepDatesAccum ecpayStep ecpayRef? ecpayDate? ∧
    StepDatesAccum chinabankStep chinabankRef? chinabankDate? ∧
    StepDatesAccumTot mbStep mbRef? mbDate? ∧
    StepDatesAccumTot smStep smRef? smDate? ∧
    StepDatesAccumTot bancnetStep bancnetRef? (fun _ => none) ∧
    StepDatesAccumTot robStep robRef? robDate? ∧
    (∀ st line k d, d ∈ datesD (st.gd k) → d ∈ datesD ((ubStep st line).gd k)) ∧
    (∀ st line dt, pyStrip line ≠ "" → 200 ≤ line.length →
      line ∉ rawsD (st.gd (ubComputeRef line)) → ubDate? line = some dt →
      dt ∈ datesD ((ubStep st line).gd (ubComputeRef line))) ∧
    (∀ gd line k dt, pyStrip line ≠ "" → cebuanaRef? line = some k →
      cebuanaDate? line = some dt → datesD (cebuanaStep gd line k) = [dt]) ∧
    (∀ gd k d, d ∈ datesD (finalizeDates gd k) ↔ d ∈ datesD (gd k)) := by
  refine ⟨⟨?_, ?_⟩, ⟨?_, ?_⟩, ⟨?_, ?_⟩, ⟨?_, ?_⟩, ⟨?_, ?_⟩, ⟨?_, ?_⟩, ⟨?_, ?_⟩, ⟨?_, ?_⟩,
    ⟨?_, ?_⟩, ?_, ?_, ?_, ?_⟩
  · exact fun gd line k d hd => cisStep_datesMono gd line k hd
  · exact fun gd line k dt hb hr hd =>
      mkStep_applyStd_adds_date "CIS" cisRef? cisAmount? cisDate? gd line k dt hb hr hd
  · exact fun gd line k d hd => pnbStep_datesMono gd line k hd
  · exact fun gd line k dt hb hr hd =>
      mkStep_applyStd_adds_date "PNB" pnbRef? pnbAmount? pnbDate? gd line k dt hb hr hd
  · exact fun gd line k d hd => bdoStep_datesMono gd line k hd
  · exact fun gd line k dt hb hr hd =>
      mkStep_applyStd_adds_date "BDO" bdoRef? bdoAmount? bdoDate? gd line k dt hb hr hd
  · exact fun gd line k d hd => ecpayStep_datesMono gd line k hd
  · exact fun gd line k dt hb hr hd =>
      mkStep_applyStd_adds_date "ECPAY" ecpayRef? ecpayAmount? ecpayDate? gd line k dt hb hr hd
  · exact fun gd line k d hd => chinabankStep_datesMono gd line k hd
  · exact fun gd line k dt hb hr hd =>
      mkStep_applyStd_adds_date "CHINABANK" chinabankRef? chinabankAmount? chinabankDate?
        gd line k dt hb hr hd
  · exact fun st line k d hd => mbStep_datesMono st line k hd
  · exact fun st line k dt hb hr hd =>
      mkStepTot_applyStd_adds_date "METROBANK" mbRef? mbAmount? mbAmount? mbDate?
        st line k dt hb hr hd
  · exact fun st line k d hd => smStep_datesMono st line k hd
  · exact fun st line k dt hb hr hd =>
      mkStepTot_applyWithRefs_adds_date "SM" smRef? smAmount? smRef13 smAmount? smDate?
        st line k dt hb hr hd
  · exact fun st line k d hd => bancnetStep_datesMono st line k hd
  · exact fun st line k dt hb hr hd => absurd hd (by simp)
  · exact fun st line k d hd => robStep_datesMono st line k hd
  · exact fun st line k dt hb hr hd =>
      mkStepTot_applyWithRefs_adds_date "ROB" robRef? robAmount? robRefFull robAmount? robDate?
        st line k dt hb hr hd
  · exact fun st line k d hd => ubStep_datesMono line k hd
  · intro st line dt hb hlen hdup hd
    obtain ⟨-, hat, -⟩ := ubStep_long hb hlen hdup
    rw [hat]
    show dt ∈ (ubApplyLong line (getOrInit st.gd (ubComputeRef line) "UNIONBANK")).dates
    exact ubApplyLong_dates_some hd _
  · intro gd line k dt hb hr hd
    rw [show cebuanaStep gd line k
        = some (applyCebuana (cebuanaAmount? line) (cebuanaDate? line) line
            (getOrInit gd k "CEBUANA")) from
      mkStep_at "CEBUANA" cebuanaRef?
        (fun line => applyCebuana (cebuanaAmount? line) (cebuanaDate? line) line)
        gd line k hb hr]
    show (applyCebuana (cebuanaAmount? line) (cebuanaDate? line) line
        (getOrInit gd k "CEBUANA")).dates = [dt]
    rw [hd]
    exact applyCebuana_dates_some _ _ _ _
  · exact fun gd k d => finalizeDates_dates_mem gd k d

/-- Witness for C8 on a concrete CIS line carrying a date. -/
theorem C8_witness : "D" ∈ datesD (cisStep emptyGD "D^1234^x" "1234") :=
  C8_amended.1.2 emptyGD "D^1234^x" "1234" "D" (by decide) (by decide) (by decide)

end ClaimC8

section ClaimC7

theorem smBackScan_eq (cs : List Char) (p : Nat) :
    smBackScan cs p
      = (((cs.take p).drop (p - 10 + 1)).reverse.takeWhile pyIsDigit).reverse := by
  unfold smBackScan
  simp only [Nat.zero_max]
  rw [List.drop_take]
  have h2 : p - 1 - (p - 10) = p - (p - 10 + 1) := by omega
  rw [h2]

theorem smBackScan_len (cs : List Char) (p : Nat) : (smBackScan cs p).length ≤ 9 := by
  unfold smBackScan
  rw [List.length_reverse]
  refine le_trans (List.IsPrefix.length_le (List.takeWhile_prefix _)) ?_
  rw [List.length_reverse, List.length_take]
  omega

/-- A 45-character SM line with ten digits immediately before the first `CS`. -/
def smLine : String := "SMX01152024FILLER71234ABCDEFGHI1234567890CSZZ"

/-- Claim C7 is false as stated: with ten digits before the first `CS`, the
backward scan collects only the last nine of them (`234567890`, giving
2 345 678.90), not the ten the claim predicts (12 345 678.90). -/
theorem C7_counterexample :
    (processFileContent smLine "SM" "1234").map Group.total_amount
      = some (0 + (digitsToNat "234567890".data : ℚ) / 100) ∧
    (0 : ℚ) + (digitsToNat "234567890".data : ℚ) / 100
      ≠ 0 + (digitsToNat "1234567890".data : ℚ) / 100 := by
  constructor
  · rfl
  · have h1 : digitsToNat "234567890".data = 234567890 := rfl
    have h2 : digitsToNat "1234567890".data = 1234567890 := rfl
    rw [h1, h2]
    norm_num

/-- Claim C7 (amended): for an SM line whose first `CS` sits at a positive
position `p`, the extracted amount is the maximal run of consecutive digits
immediately preceding the `CS` collected by scanning backward over at most
NINE characters (indices `p - 1` down to `max(0, p - 10) + 1`; index 0 is
never read), stopping at the first non-digit, interpreted as integer cents
and added to the group's total. -/
theorem C7_amended :
    (∀ st line k p, pyStrip line ≠ "" → smRef? line = some k →
      pyFindSub line "CS" = some p → 0 < p → smBackScan line.data p ≠ [] →
      totalD ((smStep st line).1 k)
        = totalD (st.1 k) + (digitsToNat (smBackScan line.data p) : ℚ) / 100) ∧
    (∀ cs p, (smBackScan cs p).length ≤ 9) ∧
    (∀ cs p, smBackScan cs p
      = (((cs.take p).drop (p - 10 + 1)).reverse.takeWhile pyIsDigit).reverse) := by
  refine ⟨?_, smBackScan_len, smBackScan_eq⟩
  intro st line k p hb hr hfind hp hne
  have hamt : smAmount? line = some ((digitsToNat (smBackScan line.data p) : ℚ) / 100) := by
    unfold smAmount?
    simp only [hfind]
    rw [if_pos hp, if_neg (by simpa using hne)]
  unfold smStep
  rw [mkStepTot_at "SM" smRef? smAmount?
    (fun line => applyWithRefs (smRef13 line) (smAmount? line) (smDate? line) line)
    st line k hb hr]
  show (applyWithRefs (smRef13 line) (smAmount? line) (smDate? line) line
      (getOrInit st.1 k "SM")).total_amount
    = totalD (st.1 k) + (digitsToNat (smBackScan line.data p) : ℚ) / 100
  rw [hamt, applyWithRefs_total_some, getOrInit_total]

/-- A 45-character SM line with six digits immediately before the first `CS`. -/
def smLineW : String := "SMX01152024FILLER71234ABCDEFGHIQQ000250CSZZZZ"

/-- Witness for C7 at a concrete SM line. -/
theorem C7_witness :
    totalD ((smStep (emptyGD, 0) smLineW).1 "1234")
      = totalD (((emptyGD, 0) : GroupedData × ℚ).1 "1234")
        + (digitsToNat (smBackScan smLineW.data 39) : ℚ) / 100 :=
  C7_amended.1 (emptyGD, 0) smLineW "1234" 39 (by decide) (by decide) (by decide)
    (by decide) (by decide)

end ClaimC7

end PySplitter
